import Mathlib

/-!
# nRF51 BLE broadcast mesh: the GATT notification protocol engine

A shallow embedding of `nRF51/rbc_mesh/src/mesh_gatt.c` (namespace `MeshGatt`)
and of `nRF51/rbc_mesh/src/serial_handler_uart.c` (namespace `SerialHandler`).
The definitions of both files come first, the theorems after them.

* Machine integers are natural numbers. The only arithmetic of the embedded
  functions is `data_len + 4`, computed in `int` on a promoted `uint8_t`, so no
  wrap-around occurs.
* Calls into the SoftDevice, the value handler (`vh_*`) and the radio are
  recorded, in program order, in a list of `Call`s; what those collaborators
  answer is read from a `Collab` record.
* Constants that the file uses but that are defined in headers outside the
  source tree are the fields of `Consts`.
-/

namespace MeshGatt

/-! ## Constants -/

/-- Constants referenced by `mesh_gatt.c` and defined elsewhere (SoftDevice
headers, `rbc_mesh.h`, `version_handler.h`, `mesh_gatt.h`). Their values are not
part of the source file, so every definition below takes them as a parameter.
`MESH_GATT_EVT_OPCODE_FLAG_CLEAR` is used as a case label of
`mesh_gatt_evt_push` although it is not an enumerator of
`mesh_gatt_evt_opcode_t`. -/
structure Consts where
  NRF_SUCCESS : Nat
  NRF_ERROR_INTERNAL : Nat
  NRF_ERROR_INVALID_PARAM : Nat
  NRF_ERROR_INVALID_LENGTH : Nat
  NRF_ERROR_BUSY : Nat
  BLE_ERROR_INVALID_CONN_HANDLE : Nat
  CONN_HANDLE_INVALID : Nat
  BLE_GATTS_EVT_WRITE : Nat
  BLE_GATT_HVX_NOTIFICATION : Nat
  RBC_MESH_VALUE_HANDLE_MAX : Nat
  RBC_MESH_INVALID_HANDLE : Nat
  RBC_MESH_VALUE_MAX_LEN : Nat
  VH_DATA_STATUS_UNKNOWN : Nat
  MESH_CHANNEL_MAX : Nat
  MESH_INTERVAL_MIN_MAX : Nat
  MESH_GATT_EVT_OPCODE_FLAG_CLEAR : Nat
deriving DecidableEq, Repr

/-- One valuation of `Consts`, used only to evaluate the definitions on concrete
inputs: the values the nRF51 SoftDevice headers and the mesh headers customarily
give, and `9` (the first value after the enumerators of
`mesh_gatt_evt_opcode_t`) for the case label
`MESH_GATT_EVT_OPCODE_FLAG_CLEAR`. -/
def nrf51 : Consts where
  NRF_SUCCESS := 0
  NRF_ERROR_INTERNAL := 3
  NRF_ERROR_INVALID_PARAM := 7
  NRF_ERROR_INVALID_LENGTH := 9
  NRF_ERROR_BUSY := 17
  BLE_ERROR_INVALID_CONN_HANDLE := 0x3002
  CONN_HANDLE_INVALID := 0xFFFF
  BLE_GATTS_EVT_WRITE := 0x50
  BLE_GATT_HVX_NOTIFICATION := 1
  RBC_MESH_VALUE_HANDLE_MAX := 0xFFEF
  RBC_MESH_INVALID_HANDLE := 0xFFFF
  RBC_MESH_VALUE_MAX_LEN := 23
  VH_DATA_STATUS_UNKNOWN := 5
  MESH_CHANNEL_MAX := 39
  MESH_INTERVAL_MIN_MAX := 60000
  MESH_GATT_EVT_OPCODE_FLAG_CLEAR := 9

/-! ### `mesh_gatt_evt_opcode_t` and `mesh_gatt_evt_flag_t` -/

def MESH_GATT_EVT_OPCODE_DATA : Nat := 0
def MESH_GATT_EVT_OPCODE_FLAG_SET : Nat := 1
def MESH_GATT_EVT_OPCODE_FLAG_REQ : Nat := 2
def MESH_GATT_EVT_OPCODE_FLAG_RSP : Nat := 3
def MESH_GATT_EVT_OPCODE_ERROR_BUSY : Nat := 4
def MESH_GATT_EVT_OPCODE_ERROR_NOT_FOUND : Nat := 5
def MESH_GATT_EVT_OPCODE_ERROR_INVALID_HANDLE : Nat := 6
def MESH_GATT_EVT_OPCODE_ERROR_UNKNOWN_FLAG : Nat := 7
def MESH_GATT_EVT_OPCODE_ERROR_INVALID_OPCODE : Nat := 8

def MESH_GATT_EVT_FLAG_PERSISTENT : Nat := 0
def MESH_GATT_EVT_FLAG_DO_TX : Nat := 1

/-! ## Data model -/

/-- The `data_update` member of the parameter union of `mesh_gatt_evt_t`. -/
structure data_update_t where
  handle : Nat
  data_len : Nat
  data : List Nat
deriving DecidableEq, Repr

/-- The `flag_update` member of the parameter union of `mesh_gatt_evt_t`. -/
structure flag_update_t where
  handle : Nat
  flag : Nat
  value : Nat
deriving DecidableEq, Repr

/-- The event `mesh_gatt_evt_t`: an opcode byte and the parameter union, of which
both members are kept. Each path of the code reads and writes one member only,
so the overlap of the two members in memory is not modelled. -/
structure mesh_gatt_evt_t where
  opcode : Nat
  data_update : data_update_t
  flag_update : flag_update_t
deriving DecidableEq, Repr

/-- The record `mesh_metadata_char_t` written to the metadata characteristic. -/
structure mesh_metadata_char_t where
  mesh_access_addr : Nat
  mesh_interval_min_ms : Nat
  mesh_channel : Nat
deriving DecidableEq, Repr

/-- The write event `ble_gatts_evt_write_t`. The source casts the written bytes
`data` to `mesh_gatt_evt_t*` for the value characteristic and to
`mesh_metadata_char_t*` for the metadata characteristic; both readings of the
bytes are carried. -/
structure ble_gatts_evt_write_t where
  handle : Nat
  len : Nat
  data_gatt_evt : mesh_gatt_evt_t
  data_metadata : mesh_metadata_char_t
deriving DecidableEq, Repr

/-- The SoftDevice event `ble_evt_t`: `header.evt_id` and `evt.gatts_evt.write`. -/
structure ble_evt_t where
  evt_id : Nat
  write : ble_gatts_evt_write_t
deriving DecidableEq, Repr

/-- The local `ble_gatts_hvx_params_t` that `mesh_gatt_evt_push` fills in. -/
structure ble_gatts_hvx_params_t where
  handle : Nat
  hvx_type : Nat
  offset : Nat
  p_len : Nat
  p_data : mesh_gatt_evt_t
deriving DecidableEq, Repr

/-- The static globals of `mesh_gatt.c` that the embedded functions read:
`m_mesh_service.ble_md_char_handles.value_handle`,
`m_mesh_service.ble_val_char_handles.value_handle`, `m_is_initialized` and
`m_active_conn_handle`. -/
structure mesh_state where
  ble_md_char_value_handle : Nat
  ble_val_char_value_handle : Nat
  m_is_initialized : Bool
  m_active_conn_handle : Nat
deriving DecidableEq, Repr

/-! ## Collaborators -/

/-- A call that leaves `mesh_gatt.c`, or the internal call of
`mesh_gatt_evt_push` (recorded with the event it is handed). -/
inductive Call where
  | sd_ble_tx_buffer_count_get
  | sd_ble_gatts_hvx (conn_handle : Nat) (arg : Nat)
  | vh_local_update (handle : Nat) (data : List Nat) (len : Nat)
  | vh_value_persistence_set (handle : Nat) (persistent : Bool)
  | vh_value_enable (handle : Nat)
  | vh_value_disable (handle : Nat)
  | vh_value_persistence_get (handle : Nat)
  | vh_value_is_enabled (handle : Nat)
  | tc_radio_params_set (access_addr : Nat) (channel : Nat)
  | vh_min_interval_set (interval_min_ms : Nat)
  | mesh_gatt_evt_push (evt : mesh_gatt_evt_t)
deriving DecidableEq, Repr

/-- What the collaborators answer. `sd_ble_tx_buffer_count_get` gives its error
code and the count it stores; the two getters give their error code and the
boolean they store through the out-parameter. -/
structure Collab where
  sd_ble_tx_buffer_count_get : Nat × Nat
  sd_ble_gatts_hvx : Nat → Nat → Nat
  vh_local_update : Nat → List Nat → Nat → Nat
  vh_value_persistence_set : Nat → Bool → Nat
  vh_value_enable : Nat → Nat
  vh_value_disable : Nat → Nat
  vh_value_persistence_get : Nat → Nat × Bool
  vh_value_is_enabled : Nat → Nat × Bool
  vh_min_interval_set : Nat → Nat

/-- Whether a call is one of the value-handler functions (`vh_*`). -/
def Call.is_vh : Call → Bool
  | .vh_local_update _ _ _ => true
  | .vh_value_persistence_set _ _ => true
  | .vh_value_enable _ => true
  | .vh_value_disable _ => true
  | .vh_value_persistence_get _ => true
  | .vh_value_is_enabled _ => true
  | .vh_min_interval_set _ => true
  | _ => false

/-- Whether a call is the notification call `sd_ble_gatts_hvx`. -/
def Call.is_hvx : Call → Bool
  | .sd_ble_gatts_hvx _ _ => true
  | _ => false

/-- The events handed to `mesh_gatt_evt_push`, in order. -/
def pushed : List Call → List mesh_gatt_evt_t
  | [] => []
  | .mesh_gatt_evt_push e :: cs => e :: pushed cs
  | _ :: cs => pushed cs

/-- Whether a call is the internal call of `mesh_gatt_evt_push`. -/
def Call.is_push : Call → Bool
  | .mesh_gatt_evt_push _ => true
  | _ => false

/-- The calls of a trace that come before the first `mesh_gatt_evt_push`. -/
def before_push (cs : List Call) : List Call := cs.takeWhile (fun k => !k.is_push)

/-- The value-handler calls of a trace, in order. -/
def vh_calls (cs : List Call) : List Call := cs.filter Call.is_vh

/-! ## `mesh_gatt_evt_push` -/

/-- The length `hvx_params.p_len` chosen by the `switch` on the opcode in
`mesh_gatt_evt_push` (lines 119-132). -/
def evt_push_p_len (c : Consts) (p_gatt_evt : mesh_gatt_evt_t) : Nat :=
  if p_gatt_evt.opcode = MESH_GATT_EVT_OPCODE_DATA then
    p_gatt_evt.data_update.data_len + 4
  else if p_gatt_evt.opcode = MESH_GATT_EVT_OPCODE_FLAG_SET
      ∨ p_gatt_evt.opcode = c.MESH_GATT_EVT_OPCODE_FLAG_CLEAR
      ∨ p_gatt_evt.opcode = MESH_GATT_EVT_OPCODE_FLAG_REQ
      ∨ p_gatt_evt.opcode = MESH_GATT_EVT_OPCODE_FLAG_RSP then
    4
  else
    1

/-- What a run of `mesh_gatt_evt_push` gives: the returned code, the calls it
made, and the local `hvx_params` when the function got to fill it in. -/
structure push_result where
  ret : Nat
  calls : List Call
  hvx_params : Option ble_gatts_hvx_params_t
deriving DecidableEq, Repr

/-- The function `mesh_gatt_evt_push`. The guard is the source's:
`m_active_conn_handle != CONN_HANDLE_INVALID` returns
`BLE_ERROR_INVALID_CONN_HANDLE`. The notification call is the source's
`sd_ble_gatts_hvx(m_active_conn_handle, CONN_HANDLE_INVALID)`. -/
def mesh_gatt_evt_push (c : Consts) (x : Collab) (s : mesh_state)
    (p_gatt_evt : mesh_gatt_evt_t) : push_result :=
  if s.m_active_conn_handle ≠ c.CONN_HANDLE_INVALID then
    { ret := c.BLE_ERROR_INVALID_CONN_HANDLE, calls := [], hvx_params := none }
  else if x.sd_ble_tx_buffer_count_get.1 = c.NRF_SUCCESS then
    if x.sd_ble_tx_buffer_count_get.2 > 0 then
      { ret := x.sd_ble_gatts_hvx s.m_active_conn_handle c.CONN_HANDLE_INVALID,
        calls := [Call.sd_ble_tx_buffer_count_get,
                  Call.sd_ble_gatts_hvx s.m_active_conn_handle c.CONN_HANDLE_INVALID],
        hvx_params := some
          { handle := s.ble_val_char_value_handle,
            hvx_type := c.BLE_GATT_HVX_NOTIFICATION,
            offset := 0,
            p_len := evt_push_p_len c p_gatt_evt,
            p_data := p_gatt_evt } }
    else
      { ret := c.NRF_ERROR_BUSY, calls := [Call.sd_ble_tx_buffer_count_get],
        hvx_params := none }
  else
    { ret := c.NRF_ERROR_BUSY, calls := [Call.sd_ble_tx_buffer_count_get],
      hvx_params := none }

/-! ## `mesh_gatt_sd_ble_event_handle` -/

/-- What a run of `mesh_gatt_sd_ble_event_handle` gives: the locals `rsp_evt`
and `send_response` as they stand when the function ends, and the calls made,
the final `mesh_gatt_evt_push(&rsp_evt)` and its own calls included. -/
structure handle_result where
  rsp_evt : mesh_gatt_evt_t
  send_response : Bool
  calls : List Call
deriving DecidableEq, Repr

/-- The function `mesh_gatt_sd_ble_event_handle`.

The local `rsp_evt` is declared without an initialiser, so its contents at entry
are indeterminate: they are the argument `rsp_evt`. The local `send_response`
starts `false`. Line 376 of the source compares the type name
`vh_data_status_t` with `VH_DATA_STATUS_UNKNOWN`; it is read as the comparison
of the variable `vh_data_status` declared on the line before. The function ends
with the source's unguarded `mesh_gatt_evt_push(&rsp_evt)`. -/
def mesh_gatt_sd_ble_event_handle (c : Consts) (x : Collab) (s : mesh_state)
    (rsp_evt : mesh_gatt_evt_t) (p_ble_evt : ble_evt_t) : handle_result :=
  let p_gatt_evt := p_ble_evt.write.data_gatt_evt
  let p_md := p_ble_evt.write.data_metadata
  let d : handle_result :=
    if p_ble_evt.evt_id = c.BLE_GATTS_EVT_WRITE then
      if p_ble_evt.write.handle = s.ble_val_char_value_handle then
        if p_gatt_evt.opcode = MESH_GATT_EVT_OPCODE_DATA then
          if p_gatt_evt.data_update.handle > c.RBC_MESH_VALUE_HANDLE_MAX then
            { rsp_evt := { rsp_evt with opcode := MESH_GATT_EVT_OPCODE_ERROR_INVALID_HANDLE },
              send_response := true, calls := [] }
          else if x.vh_local_update p_gatt_evt.data_update.handle
              p_gatt_evt.data_update.data p_gatt_evt.data_update.data_len
              = c.VH_DATA_STATUS_UNKNOWN then
            { rsp_evt := { rsp_evt with opcode := MESH_GATT_EVT_OPCODE_ERROR_BUSY },
              send_response := true,
              calls := [Call.vh_local_update p_gatt_evt.data_update.handle
                p_gatt_evt.data_update.data p_gatt_evt.data_update.data_len] }
          else
            { rsp_evt := rsp_evt, send_response := false,
              calls := [Call.vh_local_update p_gatt_evt.data_update.handle
                p_gatt_evt.data_update.data p_gatt_evt.data_update.data_len] }
        else if p_gatt_evt.opcode = MESH_GATT_EVT_OPCODE_FLAG_SET then
          if p_gatt_evt.flag_update.flag = MESH_GATT_EVT_FLAG_PERSISTENT then
            if x.vh_value_persistence_set p_gatt_evt.flag_update.handle
                (decide (p_gatt_evt.flag_update.value ≠ 0)) ≠ c.NRF_SUCCESS then
              { rsp_evt := { rsp_evt with opcode := MESH_GATT_EVT_OPCODE_ERROR_INVALID_HANDLE },
                send_response := true,
                calls := [Call.vh_value_persistence_set p_gatt_evt.flag_update.handle
                  (decide (p_gatt_evt.flag_update.value ≠ 0))] }
            else
              { rsp_evt := rsp_evt, send_response := false,
                calls := [Call.vh_value_persistence_set p_gatt_evt.flag_update.handle
                  (decide (p_gatt_evt.flag_update.value ≠ 0))] }
          else if p_gatt_evt.flag_update.flag = MESH_GATT_EVT_FLAG_DO_TX then
            if p_gatt_evt.flag_update.value ≠ 0 then
              if x.vh_value_enable p_gatt_evt.flag_update.handle ≠ c.NRF_SUCCESS then
                { rsp_evt := { rsp_evt with opcode := MESH_GATT_EVT_OPCODE_ERROR_INVALID_HANDLE },
                  send_response := true,
                  calls := [Call.vh_value_enable p_gatt_evt.flag_update.handle] }
              else
                { rsp_evt := rsp_evt, send_response := false,
                  calls := [Call.vh_value_enable p_gatt_evt.flag_update.handle] }
            else
              if x.vh_value_disable p_gatt_evt.flag_update.handle ≠ c.NRF_SUCCESS then
                { rsp_evt := { rsp_evt with opcode := MESH_GATT_EVT_OPCODE_ERROR_INVALID_HANDLE },
                  send_response := true,
                  calls := [Call.vh_value_disable p_gatt_evt.flag_update.handle] }
              else
                { rsp_evt := rsp_evt, send_response := false,
                  calls := [Call.vh_value_disable p_gatt_evt.flag_update.handle] }
          else
            { rsp_evt := { rsp_evt with opcode := MESH_GATT_EVT_OPCODE_ERROR_UNKNOWN_FLAG },
              send_response := true, calls := [] }
        else if p_gatt_evt.opcode = MESH_GATT_EVT_OPCODE_FLAG_REQ then
          if p_gatt_evt.flag_update.flag = MESH_GATT_EVT_FLAG_PERSISTENT then
            if p_gatt_evt.flag_update.handle = c.RBC_MESH_INVALID_HANDLE then
              { rsp_evt := { rsp_evt with opcode := MESH_GATT_EVT_OPCODE_ERROR_INVALID_HANDLE },
                send_response := true, calls := [] }
            else if (x.vh_value_persistence_get p_gatt_evt.flag_update.handle).1
                ≠ c.NRF_SUCCESS then
              { rsp_evt := { rsp_evt with opcode := MESH_GATT_EVT_OPCODE_ERROR_NOT_FOUND },
                send_response := true,
                calls := [Call.vh_value_persistence_get p_gatt_evt.flag_update.handle] }
            else
              { rsp_evt :=
                  { rsp_evt with
                    opcode := MESH_GATT_EVT_OPCODE_FLAG_RSP,
                    flag_update :=
                      { handle := p_gatt_evt.flag_update.handle,
                        flag := p_gatt_evt.flag_update.flag,
                        value := if (x.vh_value_persistence_get
                          p_gatt_evt.flag_update.handle).2 then 1 else 0 } },
                send_response := true,
                calls := [Call.vh_value_persistence_get p_gatt_evt.flag_update.handle] }
          else if p_gatt_evt.flag_update.flag = MESH_GATT_EVT_FLAG_DO_TX then
            if (x.vh_value_is_enabled p_gatt_evt.flag_update.handle).1 ≠ c.NRF_SUCCESS then
              { rsp_evt := { rsp_evt with opcode := MESH_GATT_EVT_OPCODE_ERROR_INVALID_HANDLE },
                send_response := true,
                calls := [Call.vh_value_is_enabled p_gatt_evt.flag_update.handle] }
            else
              { rsp_evt :=
                  { rsp_evt with
                    opcode := MESH_GATT_EVT_OPCODE_FLAG_RSP,
                    flag_update :=
                      { handle := p_gatt_evt.flag_update.handle,
                        flag := p_gatt_evt.flag_update.flag,
                        value := if (x.vh_value_is_enabled
                          p_gatt_evt.flag_update.handle).2 then 1 else 0 } },
                send_response := true,
                calls := [Call.vh_value_is_enabled p_gatt_evt.flag_update.handle] }
          else
            { rsp_evt := { rsp_evt with opcode := MESH_GATT_EVT_OPCODE_ERROR_UNKNOWN_FLAG },
              send_response := true, calls := [] }
        else
          { rsp_evt := { rsp_evt with opcode := MESH_GATT_EVT_OPCODE_ERROR_INVALID_OPCODE },
            send_response := true, calls := [] }
      else if p_ble_evt.write.handle = s.ble_md_char_value_handle then
        if x.vh_min_interval_set p_md.mesh_interval_min_ms ≠ c.NRF_SUCCESS then
          { rsp_evt := { rsp_evt with opcode := MESH_GATT_EVT_OPCODE_ERROR_UNKNOWN_FLAG },
            send_response := true,
            calls := [Call.tc_radio_params_set p_md.mesh_access_addr p_md.mesh_channel,
                      Call.vh_min_interval_set p_md.mesh_interval_min_ms] }
        else
          { rsp_evt := rsp_evt, send_response := false,
            calls := [Call.tc_radio_params_set p_md.mesh_access_addr p_md.mesh_channel,
                      Call.vh_min_interval_set p_md.mesh_interval_min_ms] }
      else
        { rsp_evt := rsp_evt, send_response := false, calls := [] }
    else
      { rsp_evt := rsp_evt, send_response := false, calls := [] }
  { rsp_evt := d.rsp_evt,
    send_response := d.send_response,
    calls := d.calls ++ Call.mesh_gatt_evt_push d.rsp_evt
      :: (mesh_gatt_evt_push c x s d.rsp_evt).calls }

/-! ## `mesh_gatt_value_set` -/

/-- What a run of `mesh_gatt_value_set` gives: the returned code and the calls
made, the call of `mesh_gatt_evt_push` and its own calls included. -/
structure value_set_result where
  ret : Nat
  calls : List Call
deriving DecidableEq, Repr

/-- The function `mesh_gatt_value_set`. The connection test is the source's
`if (m_active_conn_handle)`, a comparison with zero. The local `gatt_evt` is
declared without an initialiser; its contents at entry are the argument
`gatt_evt`, of which the function writes the opcode, the handle, the length and,
by `memcpy`, the first `length` data bytes. -/
def mesh_gatt_value_set (c : Consts) (x : Collab) (s : mesh_state) (gatt_evt : mesh_gatt_evt_t)
    (handle : Nat) (data : List Nat) (length : Nat) : value_set_result :=
  if length > c.RBC_MESH_VALUE_MAX_LEN then
    { ret := c.NRF_ERROR_INVALID_LENGTH, calls := [] }
  else if s.m_active_conn_handle ≠ 0 then
    let gatt_evt1 : mesh_gatt_evt_t :=
      { gatt_evt with
        opcode := MESH_GATT_EVT_OPCODE_DATA,
        data_update :=
          { handle := handle,
            data_len := length,
            data := data.take length ++ gatt_evt.data_update.data.drop length } }
    { ret := (mesh_gatt_evt_push c x s gatt_evt1).ret,
      calls := Call.mesh_gatt_evt_push gatt_evt1 :: (mesh_gatt_evt_push c x s gatt_evt1).calls }
  else
    { ret := c.BLE_ERROR_INVALID_CONN_HANDLE, calls := [] }

/-! ## `mesh_gatt_init` -/

/-- What `sd_ble_gatts_characteristic_add` answers: its error code and the value
handle it stores in the handles structure it is given. -/
structure char_add_t where
  err : Nat
  value_handle : Nat
deriving DecidableEq, Repr

/-- The function `mesh_md_char_add`: the validation of the metadata (lines
144-149, with `MESH_INTERVAL_MIN_MAX` on both sides as in the source) and the
registration of the characteristic, whose outcome is the stack's answer `add`.
The attribute set-up between the two is passed to the stack and has no effect
on the control flow. -/
def mesh_md_char_add (c : Consts) (add : char_add_t) (s : mesh_state)
    (metadata : mesh_metadata_char_t) : Nat × mesh_state :=
  if metadata.mesh_channel > c.MESH_CHANNEL_MAX
      ∨ metadata.mesh_interval_min_ms < c.MESH_INTERVAL_MIN_MAX
      ∨ metadata.mesh_interval_min_ms > c.MESH_INTERVAL_MIN_MAX then
    (c.NRF_ERROR_INVALID_PARAM, s)
  else if add.err ≠ c.NRF_SUCCESS then
    (c.NRF_ERROR_INTERNAL, { s with ble_md_char_value_handle := add.value_handle })
  else
    (c.NRF_SUCCESS, { s with ble_md_char_value_handle := add.value_handle })

/-- The function `mesh_value_char_add`. -/
def mesh_value_char_add (c : Consts) (add : char_add_t) (s : mesh_state) : Nat × mesh_state :=
  if add.err ≠ c.NRF_SUCCESS then
    (c.NRF_ERROR_INTERNAL, { s with ble_val_char_value_handle := add.value_handle })
  else
    (c.NRF_SUCCESS, { s with ble_val_char_value_handle := add.value_handle })

/-- The function `mesh_gatt_init`; `md_add` and `val_add` are the stack's answers
to the registration of the metadata and of the value characteristic. -/
def mesh_gatt_init (c : Consts) (md_add val_add : char_add_t) (s : mesh_state)
    (access_address channel interval_min_ms : Nat) : Nat × mesh_state :=
  let md_char : mesh_metadata_char_t :=
    { mesh_access_addr := access_address,
      mesh_interval_min_ms := interval_min_ms,
      mesh_channel := channel }
  let r1 := mesh_md_char_add c md_add s md_char
  if r1.1 ≠ c.NRF_SUCCESS then
    (r1.1, r1.2)
  else
    let r2 := mesh_value_char_add c val_add r1.2
    if r2.1 ≠ c.NRF_SUCCESS then
      (r2.1, r2.2)
    else
      (c.NRF_SUCCESS, { r2.2 with m_is_initialized := true })

/-! ## Sample inputs for evaluation -/

/-- An event with every field zero. -/
def evt_zero : mesh_gatt_evt_t where
  opcode := 0
  data_update := { handle := 0, data_len := 0, data := [] }
  flag_update := { handle := 0, flag := 0, value := 0 }

/-- Collaborators that succeed: one transmit slot is free, the notification and
the value handler return `0`, `vh_local_update` returns status `0`, and both
getters report `true`. -/
def collab_ok : Collab where
  sd_ble_tx_buffer_count_get := (0, 1)
  sd_ble_gatts_hvx := fun _ _ => 0
  vh_local_update := fun _ _ _ => 0
  vh_value_persistence_set := fun _ _ => 0
  vh_value_enable := fun _ => 0
  vh_value_disable := fun _ => 0
  vh_value_persistence_get := fun _ => (0, true)
  vh_value_is_enabled := fun _ => (0, true)
  vh_min_interval_set := fun _ => 0

/-- Collaborators as `collab_ok`, but with no free transmit slot. -/
def collab_no_slot : Collab :=
  { collab_ok with sd_ble_tx_buffer_count_get := (0, 0) }

/-- Collaborators whose value handler fails every call with error code `1`
(`vh_local_update` answers `VH_DATA_STATUS_UNKNOWN` of `nrf51`). -/
def collab_vh_fail : Collab where
  sd_ble_tx_buffer_count_get := (0, 1)
  sd_ble_gatts_hvx := fun _ _ => 0
  vh_local_update := fun _ _ _ => 5
  vh_value_persistence_set := fun _ _ => 1
  vh_value_enable := fun _ => 1
  vh_value_disable := fun _ => 1
  vh_value_persistence_get := fun _ => (1, false)
  vh_value_is_enabled := fun _ => (1, false)
  vh_min_interval_set := fun _ => 1

/-- Globals with the value characteristic at attribute handle `14`, the metadata
characteristic at `11`, and the given connection handle. -/
def state_conn (conn : Nat) : mesh_state where
  ble_md_char_value_handle := 11
  ble_val_char_value_handle := 14
  m_is_initialized := true
  m_active_conn_handle := conn

/-- A DataUpdate event as it lies in memory: handle, length and data bytes; the
`flag_update` member reads the same bytes (flag is the length byte, value the
first data byte). -/
def data_evt (handle : Nat) (data : List Nat) : mesh_gatt_evt_t where
  opcode := MESH_GATT_EVT_OPCODE_DATA
  data_update := { handle := handle, data_len := data.length, data := data }
  flag_update := { handle := handle, flag := data.length, value := data.headD 0 }

/-- A flag event with the given opcode as it lies in memory; the `data_update`
member reads the same bytes. -/
def flag_evt (opcode handle flag value : Nat) : mesh_gatt_evt_t where
  opcode := opcode
  data_update := { handle := handle, data_len := flag, data := [value] }
  flag_update := { handle := handle, flag := flag, value := value }

/-- A write event to attribute `attr` carrying the event `e`. -/
def write_evt (c : Consts) (attr : Nat) (e : mesh_gatt_evt_t) : ble_evt_t where
  evt_id := c.BLE_GATTS_EVT_WRITE
  write :=
    { handle := attr, len := 5, data_gatt_evt := e,
      data_metadata := { mesh_access_addr := 0, mesh_interval_min_ms := 0, mesh_channel := 0 } }

end MeshGatt

namespace SerialHandler

/-! # The UART serial handler `serial_handler_uart.c`

* The two queues are `fifo_t` objects, whose implementation (`fifo.c`) is not part
  of the source tree; they are modelled from the spec as bounded first-in
  first-out queues.
* The external scheduler `event_handler_push` and the UART are collaborators:
  whether the scheduler accepts a work item is an argument `accept`, the number
  of `do_transmit` work items it holds is the field `pending`, and the bytes
  handed to `app_uart_put` are the field `uart`.
* Locals that the source leaves uninitialised are arguments (`raw_data`).
-/

/-- The queue capacity `SERIAL_QUEUE_SIZE` (line 44). -/
def SERIAL_QUEUE_SIZE : Nat := 4

/-- The type `serial_state_t`. -/
inductive serial_state_t where
  | SERIAL_STATE_IDLE
  | SERIAL_STATE_TRANSMIT
deriving DecidableEq, Repr

/-- Sizes and constants that `serial_handler_uart.c` uses and that are defined in
headers outside the source tree. `buffer_len` is the number of elements of the
member `buffer` of `serial_data_t`; `sizeof_rest` is the number of bytes of
`serial_data_t` beyond that array and the first byte of `status_byte`, so that
`sizeof(serial_data_t) = buffer_len + 1 + sizeof_rest`. -/
structure SerialConsts where
  buffer_len : Nat
  sizeof_rest : Nat
  SERIAL_EVT_OPCODE_CMD_RSP : Nat
  ACI_STATUS_ERROR_BUSY : Nat
deriving DecidableEq, Repr

/-- The value of `sizeof(serial_data_t)`, which is `sizeof(rx_buf)`. -/
def sizeof_serial_data_t (k : SerialConsts) : Nat := k.buffer_len + 1 + k.sizeof_rest

/-- Modelled from the spec: the position `SERIAL_LENGTH_POS` of the length byte in
a frame, defined in a header outside the source tree. The spec has the first
byte of a frame as its length prefix. -/
def SERIAL_LENGTH_POS : Nat := 0

/-- The type `serial_data_t`: the members `status_byte` and `buffer` that the
source uses. -/
structure serial_data_t where
  status_byte : Nat
  buffer : List Nat
deriving DecidableEq, Repr

/-- Modelled from the spec: the layout of `serial_evt_t`, declared in a header
outside the source tree. A frame is a length byte followed by the payload, which
starts with the opcode; `params` are the bytes after the opcode (for a command
response: `command_opcode`, then `status`). -/
structure serial_evt_t where
  length : Nat
  opcode : Nat
  params : List Nat
deriving DecidableEq, Repr

/-- The bytes of a `serial_evt_t` object in memory order. -/
def serial_evt_t.bytes (e : serial_evt_t) : List Nat := e.length :: e.opcode :: e.params

/-- Modelled from the spec: the member `opcode` of `serial_cmd_t`, declared in a
header outside the source tree, read through the cast
`(serial_cmd_t*) rx_buf.buffer`: the byte after the length byte. -/
def serial_cmd_opcode (buffer : List Nat) : Nat := buffer.getD 1 0

/-- The library call `memcpy(dst, src, n)` on byte lists: the first `n` bytes of
`dst` become the first `n` bytes of `src`. This is the C function whenever `n`
is within both objects; beyond that the source has no defined behaviour. -/
def memcpy (dst src : List Nat) (n : Nat) : List Nat := src.take n ++ dst.drop n

/-! ## The queues -/

/-- Modelled from the spec: the queue type `fifo_t` of `fifo.h`, a bounded
first-in first-out queue of `serial_data_t` with a fixed capacity `array_len`.
`elems` holds the queued frames, oldest first. -/
structure fifo_t where
  array_len : Nat
  elems : List serial_data_t
deriving DecidableEq, Repr

/-- Modelled from the spec: `fifo_is_full` of `fifo.c`, true when the queue holds
`array_len` frames. -/
def fifo_is_full (f : fifo_t) : Bool := decide (f.array_len ≤ f.elems.length)

/-- Modelled from the spec: `fifo_push` of `fifo.c`. On a full queue it fails and
leaves the queue as it is; otherwise it copies the frame to the tail. The
boolean tells whether the function returned `NRF_SUCCESS`. -/
def fifo_push (f : fifo_t) (e : serial_data_t) : Bool × fifo_t :=
  if fifo_is_full f then (false, f) else (true, { f with elems := f.elems ++ [e] })

/-- Modelled from the spec: `fifo_pop` of `fifo.c`. On an empty queue it fails
(`none`) and leaves the queue as it is; otherwise it removes the oldest frame
and gives it. -/
def fifo_pop (f : fifo_t) : Option serial_data_t × fifo_t :=
  match f.elems with
  | [] => (none, f)
  | e :: es => (some e, { f with elems := es })

/-! ## State -/

/-- The static state of `serial_handler_uart.c` and of its collaborators:
the globals `rx_fifo`, `tx_fifo` and `serial_state`; the statics `rx_buf` and
`pp` of `char_rx`, `pp` as the offset of the pointer from `rx_buf.buffer`; the
number `pending` of `do_transmit` work items that the external scheduler holds;
and the bytes `uart` handed to `app_uart_put` so far, oldest first. -/
structure serial_t where
  rx_fifo : fifo_t
  tx_fifo : fifo_t
  serial_state : serial_state_t
  rx_buf : serial_data_t
  pp : Nat
  pending : Nat
  uart : List Nat
deriving DecidableEq, Repr

/-- The state after the queue set-up of `serial_handler_init` (lines 156-165) and
before anything is sent or received: both queues empty with capacity
`SERIAL_QUEUE_SIZE`, the zero-initialised statics (`SERIAL_STATE_IDLE`, an
all-zero `rx_buf`, `pp` at the start of `rx_buf.buffer`), no pending work item
and nothing written to the UART. -/
def serial_init (k : SerialConsts) : serial_t where
  rx_fifo := { array_len := SERIAL_QUEUE_SIZE, elems := [] }
  tx_fifo := { array_len := SERIAL_QUEUE_SIZE, elems := [] }
  serial_state := serial_state_t.SERIAL_STATE_IDLE
  rx_buf := { status_byte := 0, buffer := List.replicate k.buffer_len 0 }
  pp := 0
  pending := 0
  uart := []

/-! ## `do_transmit` and `schedule_transmit` -/

/-- The bytes that the inner loop of `do_transmit` hands to `app_uart_put` for a
popped frame: `len` bytes starting at `tx_buffer.buffer`, where `len` is the
`length` member of the event stored in the frame, its first byte. Line 76 casts
the structure `tx_buffer` itself and line 77 applies `->` to it; they are read
as the cast of `tx_buffer.buffer` and as `tx_buffer.buffer`. For a length byte
beyond the array the source reads past it; the list stops at its end. -/
def transmit_bytes (tx_buffer : serial_data_t) : List Nat :=
  tx_buffer.buffer.take (tx_buffer.buffer.headD 0)

/-- The `while` loop of `do_transmit` over the frames that `fifo_pop` yields one
after the other: each iteration sets `SERIAL_STATE_TRANSMIT`, writes the bytes
of the frame and sets `SERIAL_STATE_IDLE`. -/
def do_transmit_loop :
    List serial_data_t → serial_state_t → List Nat → serial_state_t × List Nat
  | [], serial_state, uart => (serial_state, uart)
  | tx_buffer :: rest, _, uart =>
    do_transmit_loop rest serial_state_t.SERIAL_STATE_IDLE (uart ++ transmit_bytes tx_buffer)

/-- The function `do_transmit`: it pops until `fifo_pop` fails, which leaves the
queue empty. -/
def do_transmit (s : serial_t) : serial_t :=
  { s with
    tx_fifo := { s.tx_fifo with elems := [] },
    serial_state := (do_transmit_loop s.tx_fifo.elems s.serial_state s.uart).1,
    uart := (do_transmit_loop s.tx_fifo.elems s.serial_state s.uart).2 }

/-- The function `schedule_transmit`; `accept` tells whether
`event_handler_push` returns `NRF_SUCCESS`, in which case the scheduler holds one
more `do_transmit` work item. -/
def schedule_transmit (accept : Bool) (s : serial_t) : serial_t :=
  if s.serial_state ≠ serial_state_t.SERIAL_STATE_TRANSMIT then
    if accept then
      { s with serial_state := serial_state_t.SERIAL_STATE_TRANSMIT, pending := s.pending + 1 }
    else
      { s with serial_state := serial_state_t.SERIAL_STATE_IDLE }
  else
    s

/-! ## `serial_handler_event_send`, `char_rx`, `serial_handler_command_get` -/

/-- The function `serial_handler_event_send`. The local `raw_data` is
uninitialised in the source; its contents at entry are the argument
`raw_data`. The result of `fifo_push` is ignored as in the source. -/
def serial_handler_event_send (accept : Bool) (raw_data : serial_data_t) (evt : serial_evt_t)
    (s : serial_t) : Bool × serial_t :=
  if fifo_is_full s.tx_fifo then
    (false, s)
  else
    let raw_data1 : serial_data_t :=
      { status_byte := 0, buffer := memcpy raw_data.buffer evt.bytes (evt.length + 1) }
    let s1 : serial_t := { s with tx_fifo := (fifo_push s.tx_fifo raw_data1).2 }
    if s1.serial_state = serial_state_t.SERIAL_STATE_IDLE then
      (true, schedule_transmit accept s1)
    else
      (true, s1)

/-- The frame that `serial_handler_event_send` copies to the outbound queue:
status byte 0, the first `length + 1` bytes of the event, and behind them
whatever `raw_data` held. -/
def queued_frame (raw_data : serial_data_t) (evt : serial_evt_t) : serial_data_t where
  status_byte := 0
  buffer := memcpy raw_data.buffer evt.bytes (evt.length + 1)

/-- The completion test of `char_rx` (line 110) on the length `len` accumulated
so far and the buffer:
`len >= sizeof(rx_buf) || (len > 1 && len >= rx_buf.buffer[0] + 1)`. -/
def end_of_command (k : SerialConsts) (len : Nat) (buffer : List Nat) : Bool :=
  decide (len ≥ sizeof_serial_data_t k ∨ (len > 1 ∧ len ≥ buffer.getD 0 0 + 1))

/-- The function `char_rx`. The byte is stored at `pp`, which then advances; a
store past the end of the array is not recorded. Line 122 assigns the structure
`rx_buf` to the pointer `pp`; it is read as `pp = rx_buf.buffer`, the value `pp`
is initialised with. `accept` and `raw_data` are passed on to
`serial_handler_event_send`, whose result is ignored as in the source. -/
def char_rx (k : SerialConsts) (accept : Bool) (raw_data : serial_data_t) (c : Nat)
    (s : serial_t) : serial_t :=
  let rx_buf : serial_data_t := { s.rx_buf with buffer := s.rx_buf.buffer.set s.pp c }
  let len := s.pp + 1
  let s1 : serial_t := { s with rx_buf := rx_buf, pp := s.pp + 1 }
  if end_of_command k len rx_buf.buffer then
    if (fifo_push s1.rx_fifo rx_buf).1 = false then
      let fail_evt : serial_evt_t :=
        { length := 3,
          opcode := k.SERIAL_EVT_OPCODE_CMD_RSP,
          params := [serial_cmd_opcode rx_buf.buffer, k.ACI_STATUS_ERROR_BUSY] }
      { (serial_handler_event_send accept raw_data fail_evt s1).2 with pp := 0 }
    else
      { s1 with rx_fifo := (fifo_push s1.rx_fifo rx_buf).2, pp := 0 }
  else
    s1

/-- The function `serial_handler_command_get`; `cmd` is the caller's command
buffer, and the result holds the returned boolean, the new state and the
command buffer after the call. -/
def serial_handler_command_get (s : serial_t) (cmd : List Nat) : Bool × serial_t × List Nat :=
  match fifo_pop s.rx_fifo with
  | (none, _) => (false, s, cmd)
  | (some temp, rx_fifo) =>
    if temp.buffer.getD SERIAL_LENGTH_POS 0 > 0 then
      (true, { s with rx_fifo := rx_fifo },
        memcpy cmd temp.buffer (temp.buffer.getD SERIAL_LENGTH_POS 0 + 1))
    else
      (true, { s with rx_fifo := rx_fifo }, cmd)

/-! ## Runs -/

/-- The scheduler runs one pending `do_transmit` work item. -/
def run_pending (s : serial_t) : serial_t := do_transmit { s with pending := s.pending - 1 }

/-- The frames of a list are enqueued one after the other with
`serial_handler_event_send`; the result holds the returned booleans in order and
the final state. -/
def send_all (accept : Bool) (raw_data : serial_data_t) :
    List serial_evt_t → serial_t → List Bool × serial_t
  | [], s => ([], s)
  | evt :: rest, s =>
    ((serial_handler_event_send accept raw_data evt s).1
        :: (send_all accept raw_data rest (serial_handler_event_send accept raw_data evt s).2).1,
      (send_all accept raw_data rest (serial_handler_event_send accept raw_data evt s).2).2)

/-- The bytes of a list are fed one after the other to `char_rx`. -/
def char_rx_all (k : SerialConsts) (accept : Bool) (raw_data : serial_data_t) :
    List Nat → serial_t → serial_t
  | [], s => s
  | c :: rest, s => char_rx_all k accept raw_data rest (char_rx k accept raw_data c s)

/-- The states reachable from `serial_init` by calls of
`serial_handler_event_send`, `char_rx` and `serial_handler_command_get` with any
arguments, the scheduler accepting or rejecting as it likes, and by the
scheduler running a pending `do_transmit` work item. -/
inductive Reachable (k : SerialConsts) : serial_t → Prop where
  | init : Reachable k (serial_init k)
  | event_send (s : serial_t) (accept : Bool) (raw_data : serial_data_t) (evt : serial_evt_t) :
      Reachable k s → Reachable k (serial_handler_event_send accept raw_data evt s).2
  | char_rx (s : serial_t) (accept : Bool) (raw_data : serial_data_t) (c : Nat) :
      Reachable k s → Reachable k (char_rx k accept raw_data c s)
  | command_get (s : serial_t) (cmd : List Nat) :
      Reachable k s → Reachable k (serial_handler_command_get s cmd).2.1
  | run_pending (s : serial_t) :
      Reachable k s → 0 < s.pending → Reachable k (run_pending s)

/-- The states reachable as in `Reachable` when the external scheduler never
rejects a work item: every call of `event_handler_push` succeeds. -/
inductive ReachableAccepting (k : SerialConsts) : serial_t → Prop where
  | init : ReachableAccepting k (serial_init k)
  | event_send (s : serial_t) (raw_data : serial_data_t) (evt : serial_evt_t) :
      ReachableAccepting k s →
      ReachableAccepting k (serial_handler_event_send true raw_data evt s).2
  | char_rx (s : serial_t) (raw_data : serial_data_t) (c : Nat) :
      ReachableAccepting k s → ReachableAccepting k (char_rx k true raw_data c s)
  | command_get (s : serial_t) (cmd : List Nat) :
      ReachableAccepting k s → ReachableAccepting k (serial_handler_command_get s cmd).2.1
  | run_pending (s : serial_t) :
      ReachableAccepting k s → 0 < s.pending → ReachableAccepting k (run_pending s)

/-- The invariant of the flush scheduling: at most one `do_transmit` work item is
pending, the state is `SERIAL_STATE_TRANSMIT` exactly when one is pending, and
then the outbound queue is not empty. -/
def flush_inv (s : serial_t) : Prop :=
  s.pending ≤ 1
    ∧ (s.serial_state = serial_state_t.SERIAL_STATE_TRANSMIT ↔ s.pending = 1)
    ∧ (s.pending = 1 → s.tx_fifo.elems ≠ [])

/-! ## Sample inputs for evaluation -/

/-- One valuation of `SerialConsts`, used only to evaluate the definitions on
concrete inputs: a frame array of 8 bytes, no further bytes in `serial_data_t`,
and the opcode and status values `0x84` and `0x87`. -/
def uart8 : SerialConsts where
  buffer_len := 8
  sizeof_rest := 0
  SERIAL_EVT_OPCODE_CMD_RSP := 0x84
  ACI_STATUS_ERROR_BUSY := 0x87

/-- Contents of an uninitialised `raw_data`: every byte `0xEE`. -/
def raw_garbage : serial_data_t where
  status_byte := 0xEE
  buffer := List.replicate 8 0xEE

/-- A state in which both queues are full: four one-byte-payload events were sent
from the initial state and four two-byte commands `1, 9` were received. -/
def state_both_full : serial_t :=
  char_rx_all uart8 true raw_garbage [1, 9, 1, 9, 1, 9, 1, 9]
    (send_all true raw_garbage [⟨1, 5, []⟩, ⟨1, 6, []⟩, ⟨1, 7, []⟩, ⟨1, 8, []⟩]
      (serial_init uart8)).2

/-- A state in which the inbound queue is full and the outbound queue is empty:
four two-byte commands `1, 9` were received from the initial state. -/
def state_rx_full : serial_t :=
  char_rx_all uart8 true raw_garbage [1, 9, 1, 9, 1, 9, 1, 9] (serial_init uart8)

/-- A frame in a queue: status byte 0, the given bytes, and `0xEE` up to 8 bytes. -/
def frame_of (bytes : List Nat) : serial_data_t where
  status_byte := 0
  buffer := memcpy (List.replicate 8 0xEE) bytes bytes.length

end SerialHandler

namespace MeshGatt

/-! ## Theorems: the outbound push `mesh_gatt_evt_push` -/

/-- C1, the code at the failing input. With the connection handle unset
(`m_active_conn_handle = CONN_HANDLE_INVALID`) and a free transmit slot,
`mesh_gatt_evt_push` does not fail with `BLE_ERROR_INVALID_CONN_HANDLE`: it calls
the transmit-slot query `sd_ble_tx_buffer_count_get`, then the notification
`sd_ble_gatts_hvx`, and returns the notification's result. -/
theorem evt_push_unset_conn_queries_stack :
    (mesh_gatt_evt_push nrf51 collab_ok (state_conn nrf51.CONN_HANDLE_INVALID) evt_zero).calls
        = [Call.sd_ble_tx_buffer_count_get, Call.sd_ble_gatts_hvx 0xFFFF 0xFFFF]
      ∧ (mesh_gatt_evt_push nrf51 collab_ok (state_conn nrf51.CONN_HANDLE_INVALID) evt_zero).ret
        = 0
      ∧ (mesh_gatt_evt_push nrf51 collab_ok (state_conn nrf51.CONN_HANDLE_INVALID) evt_zero).ret
        ≠ nrf51.BLE_ERROR_INVALID_CONN_HANDLE := by
  decide

/-- With the connection handle unset, `mesh_gatt_evt_push` always starts with the
transmit-slot query, whatever the constants, the collaborators and the event. -/
theorem evt_push_unset_conn_head (c : Consts) (x : Collab) (s : mesh_state)
    (e : mesh_gatt_evt_t) :
    (mesh_gatt_evt_push c x { s with m_active_conn_handle := c.CONN_HANDLE_INVALID } e).calls.head?
      = some Call.sd_ble_tx_buffer_count_get := by
  unfold mesh_gatt_evt_push
  by_cases h1 : x.sd_ble_tx_buffer_count_get.1 = c.NRF_SUCCESS
  · by_cases h2 : x.sd_ble_tx_buffer_count_get.2 > 0 <;> simp [h1, h2]
  · simp [h1]

/-- C2, the code at the failing input. With a live connection (handle `0`) and no
free transmit slot, `mesh_gatt_evt_push` returns
`BLE_ERROR_INVALID_CONN_HANDLE`, which is not `NRF_ERROR_BUSY`, and calls
nothing, not even the transmit-slot query. -/
theorem evt_push_live_conn_no_slot_not_busy :
    mesh_gatt_evt_push nrf51 collab_no_slot (state_conn 0) evt_zero
        = { ret := nrf51.BLE_ERROR_INVALID_CONN_HANDLE, calls := [], hvx_params := none }
      ∧ nrf51.BLE_ERROR_INVALID_CONN_HANDLE ≠ nrf51.NRF_ERROR_BUSY := by
  decide

/-- With a live connection (any handle other than `CONN_HANDLE_INVALID`),
`mesh_gatt_evt_push` returns `BLE_ERROR_INVALID_CONN_HANDLE` and calls nothing,
whatever the collaborators would answer. -/
theorem evt_push_live_conn (c : Consts) (x : Collab) (s : mesh_state) (e : mesh_gatt_evt_t)
    (h : s.m_active_conn_handle ≠ c.CONN_HANDLE_INVALID) :
    mesh_gatt_evt_push c x s e
      = { ret := c.BLE_ERROR_INVALID_CONN_HANDLE, calls := [], hvx_params := none } := by
  simp [mesh_gatt_evt_push, h]

/-- Witness of `evt_push_live_conn`: connection handle `0`. -/
theorem evt_push_live_conn_witness :
    (state_conn 0).m_active_conn_handle ≠ nrf51.CONN_HANDLE_INVALID
      ∧ mesh_gatt_evt_push nrf51 collab_ok (state_conn 0) evt_zero
        = { ret := nrf51.BLE_ERROR_INVALID_CONN_HANDLE, calls := [], hvx_params := none } :=
  ⟨by decide, evt_push_live_conn nrf51 collab_ok (state_conn 0) evt_zero (by decide)⟩

/-- C3 as stated fails: the opcode value that the case label
`MESH_GATT_EVT_OPCODE_FLAG_CLEAR` names is none of DataUpdate, FlagSet,
FlagRequest, FlagResponse, and its encoded length is 4, not 1. This holds at the
sample valuation (label value 9), and no valuation that makes the label an
opcode byte distinct from the other four case labels gives every remaining
opcode the length 1. -/
theorem evt_push_p_len_flag_clear_not_one :
    (nrf51.MESH_GATT_EVT_OPCODE_FLAG_CLEAR ≠ MESH_GATT_EVT_OPCODE_DATA
      ∧ nrf51.MESH_GATT_EVT_OPCODE_FLAG_CLEAR ≠ MESH_GATT_EVT_OPCODE_FLAG_SET
      ∧ nrf51.MESH_GATT_EVT_OPCODE_FLAG_CLEAR ≠ MESH_GATT_EVT_OPCODE_FLAG_REQ
      ∧ nrf51.MESH_GATT_EVT_OPCODE_FLAG_CLEAR ≠ MESH_GATT_EVT_OPCODE_FLAG_RSP
      ∧ evt_push_p_len nrf51 { evt_zero with opcode := 9 } = 4)
    ∧ ¬ ∃ c : Consts,
        c.MESH_GATT_EVT_OPCODE_FLAG_CLEAR < 256
        ∧ c.MESH_GATT_EVT_OPCODE_FLAG_CLEAR ≠ MESH_GATT_EVT_OPCODE_DATA
        ∧ c.MESH_GATT_EVT_OPCODE_FLAG_CLEAR ≠ MESH_GATT_EVT_OPCODE_FLAG_SET
        ∧ c.MESH_GATT_EVT_OPCODE_FLAG_CLEAR ≠ MESH_GATT_EVT_OPCODE_FLAG_REQ
        ∧ c.MESH_GATT_EVT_OPCODE_FLAG_CLEAR ≠ MESH_GATT_EVT_OPCODE_FLAG_RSP
        ∧ ∀ e : mesh_gatt_evt_t, e.opcode < 256 →
            e.opcode ≠ MESH_GATT_EVT_OPCODE_DATA →
            e.opcode ≠ MESH_GATT_EVT_OPCODE_FLAG_SET →
            e.opcode ≠ MESH_GATT_EVT_OPCODE_FLAG_REQ →
            e.opcode ≠ MESH_GATT_EVT_OPCODE_FLAG_RSP →
            evt_push_p_len c e = 1 := by
  refine ⟨by decide, ?_⟩
  rintro ⟨c, hlt, h0, h1, h2, h3, hall⟩
  have h := hall { evt_zero with opcode := c.MESH_GATT_EVT_OPCODE_FLAG_CLEAR } hlt h0 h1 h2 h3
  simp [evt_push_p_len, h0] at h

/-- C3, amended. The encoded length computed by `mesh_gatt_evt_push` is
`data_len + 4` for opcode DataUpdate; 4 for FlagSet, FlagRequest, FlagResponse
and for the opcode value of the fourth flag label
`MESH_GATT_EVT_OPCODE_FLAG_CLEAR`; and 1 for every other opcode value. Whenever
the function fills in its notification parameters, their length is that value
and their data is the event. -/
theorem evt_push_p_len_by_opcode (c : Consts) (x : Collab) (s : mesh_state)
    (e : mesh_gatt_evt_t) :
    (e.opcode = MESH_GATT_EVT_OPCODE_DATA →
        evt_push_p_len c e = e.data_update.data_len + 4)
    ∧ (e.opcode ≠ MESH_GATT_EVT_OPCODE_DATA →
        (e.opcode = MESH_GATT_EVT_OPCODE_FLAG_SET
          ∨ e.opcode = MESH_GATT_EVT_OPCODE_FLAG_REQ
          ∨ e.opcode = MESH_GATT_EVT_OPCODE_FLAG_RSP
          ∨ e.opcode = c.MESH_GATT_EVT_OPCODE_FLAG_CLEAR) →
        evt_push_p_len c e = 4)
    ∧ (e.opcode ≠ MESH_GATT_EVT_OPCODE_DATA →
        e.opcode ≠ MESH_GATT_EVT_OPCODE_FLAG_SET →
        e.opcode ≠ MESH_GATT_EVT_OPCODE_FLAG_REQ →
        e.opcode ≠ MESH_GATT_EVT_OPCODE_FLAG_RSP →
        e.opcode ≠ c.MESH_GATT_EVT_OPCODE_FLAG_CLEAR →
        evt_push_p_len c e = 1)
    ∧ (∀ p, (mesh_gatt_evt_push c x s e).hvx_params = some p →
        p.p_len = evt_push_p_len c e ∧ p.p_data = e) := by
  refine ⟨?_, ?_, ?_, ?_⟩
  · intro h
    simp [evt_push_p_len, h]
  · intro h0 h
    unfold evt_push_p_len
    rw [if_neg h0, if_pos]
    tauto
  · intro h0 h1 h2 h3 h4
    simp [evt_push_p_len, h0, h1, h2, h3, h4]
  · intro p hp
    unfold mesh_gatt_evt_push at hp
    split_ifs at hp
    simp at hp
    subst hp
    exact ⟨rfl, rfl⟩

/-! ## Theorems: the inbound dispatch `mesh_gatt_sd_ble_event_handle` -/

/-- The outbound push calls no value-handler function. -/
theorem vh_calls_evt_push (c : Consts) (x : Collab) (s : mesh_state) (e : mesh_gatt_evt_t) :
    vh_calls (mesh_gatt_evt_push c x s e).calls = [] := by
  unfold mesh_gatt_evt_push
  split_ifs <;> simp [vh_calls, Call.is_vh]

/-- The outbound push does not call itself. -/
theorem pushed_evt_push (c : Consts) (x : Collab) (s : mesh_state) (e : mesh_gatt_evt_t) :
    pushed (mesh_gatt_evt_push c x s e).calls = [] := by
  unfold mesh_gatt_evt_push
  split_ifs <;> simp [pushed]

/-- The value-handler calls of a trace that ends with one push. -/
theorem vh_calls_with_push (c : Consts) (x : Collab) (s : mesh_state) (e : mesh_gatt_evt_t)
    (cs : List Call) :
    vh_calls (cs ++ Call.mesh_gatt_evt_push e :: (mesh_gatt_evt_push c x s e).calls)
      = vh_calls cs := by
  have h := vh_calls_evt_push c x s e
  simp only [vh_calls] at h ⊢
  simp [List.filter_append, List.filter_cons, Call.is_vh, h]

/-- The pushed events of a trace split at a concatenation. -/
theorem pushed_append (as bs : List Call) : pushed (as ++ bs) = pushed as ++ pushed bs := by
  induction as with
  | nil => simp [pushed]
  | cons a as ih => cases a <;> simp [pushed, ih]

/-- The pushed events of a trace that ends with one push. -/
theorem pushed_with_push (c : Consts) (x : Collab) (s : mesh_state) (e : mesh_gatt_evt_t)
    (cs : List Call) :
    pushed (cs ++ Call.mesh_gatt_evt_push e :: (mesh_gatt_evt_push c x s e).calls)
      = pushed cs ++ [e] := by
  simp [pushed_append, pushed, pushed_evt_push]

/-- C4, the code at the failing input. A write to the value endpoint carries a
DataUpdate with handle 3 and the two bytes 7, 8; the value handler accepts it.
The handler calls `vh_local_update` once with exactly those arguments and leaves
`send_response` false, and still invokes `mesh_gatt_evt_push` on the
never-written `rsp_evt`, which here goes on to notify. -/
theorem event_handle_accepted_data_still_pushes :
    mesh_gatt_sd_ble_event_handle nrf51 collab_ok (state_conn nrf51.CONN_HANDLE_INVALID)
        evt_zero
        (write_evt nrf51 14 (data_evt 3 [7, 8]))
      = { rsp_evt := evt_zero,
          send_response := false,
          calls := [Call.vh_local_update 3 [7, 8] 2,
                    Call.mesh_gatt_evt_push evt_zero,
                    Call.sd_ble_tx_buffer_count_get,
                    Call.sd_ble_gatts_hvx 0xFFFF 0xFFFF] } := by
  decide

/-- For every DataUpdate written to the value endpoint with a handle within
range, the value handler is called exactly once, by `vh_local_update` with the
written handle, data bytes and length. -/
theorem event_handle_data_forwarded (c : Consts) (x : Collab) (s : mesh_state)
    (rsp_evt : mesh_gatt_evt_t) (p_ble_evt : ble_evt_t)
    (hw : p_ble_evt.evt_id = c.BLE_GATTS_EVT_WRITE)
    (hv : p_ble_evt.write.handle = s.ble_val_char_value_handle)
    (hop : p_ble_evt.write.data_gatt_evt.opcode = MESH_GATT_EVT_OPCODE_DATA)
    (hh : p_ble_evt.write.data_gatt_evt.data_update.handle ≤ c.RBC_MESH_VALUE_HANDLE_MAX) :
    vh_calls (mesh_gatt_sd_ble_event_handle c x s rsp_evt p_ble_evt).calls
      = [Call.vh_local_update p_ble_evt.write.data_gatt_evt.data_update.handle
          p_ble_evt.write.data_gatt_evt.data_update.data
          p_ble_evt.write.data_gatt_evt.data_update.data_len] := by
  have hh' : ¬ p_ble_evt.write.data_gatt_evt.data_update.handle > c.RBC_MESH_VALUE_HANDLE_MAX :=
    Nat.not_lt.mpr hh
  unfold mesh_gatt_sd_ble_event_handle
  simp only [hw, hv, hop, hh', if_true, if_false]
  rw [vh_calls_with_push]
  split_ifs <;> simp [vh_calls, Call.is_vh]

/-- Witness of `event_handle_data_forwarded`: handle 3, bytes 7, 8. -/
theorem event_handle_data_forwarded_witness :
    vh_calls (mesh_gatt_sd_ble_event_handle nrf51 collab_ok (state_conn 0) evt_zero
        (write_evt nrf51 14 (data_evt 3 [7, 8]))).calls
      = [Call.vh_local_update 3 [7, 8] 2] :=
  event_handle_data_forwarded nrf51 collab_ok (state_conn 0) evt_zero
    (write_evt nrf51 14 (data_evt 3 [7, 8]))
    rfl rfl rfl (by decide)

/-- C5. For every write to the value endpoint carrying a DataUpdate whose handle
is greater than `RBC_MESH_VALUE_HANDLE_MAX`, the handler calls no value-handler
function, and the one event handed to `mesh_gatt_evt_push` is the response with
opcode ErrorInvalidHandle. -/
theorem event_handle_data_handle_out_of_range (c : Consts) (x : Collab) (s : mesh_state)
    (rsp_evt : mesh_gatt_evt_t) (p_ble_evt : ble_evt_t)
    (hw : p_ble_evt.evt_id = c.BLE_GATTS_EVT_WRITE)
    (hv : p_ble_evt.write.handle = s.ble_val_char_value_handle)
    (hop : p_ble_evt.write.data_gatt_evt.opcode = MESH_GATT_EVT_OPCODE_DATA)
    (hh : p_ble_evt.write.data_gatt_evt.data_update.handle > c.RBC_MESH_VALUE_HANDLE_MAX) :
    vh_calls (mesh_gatt_sd_ble_event_handle c x s rsp_evt p_ble_evt).calls = []
      ∧ pushed (mesh_gatt_sd_ble_event_handle c x s rsp_evt p_ble_evt).calls
          = [{ rsp_evt with opcode := MESH_GATT_EVT_OPCODE_ERROR_INVALID_HANDLE }]
      ∧ (mesh_gatt_sd_ble_event_handle c x s rsp_evt p_ble_evt).send_response = true := by
  unfold mesh_gatt_sd_ble_event_handle
  simp only [hw, hv, hop, hh, if_true]
  rw [vh_calls_with_push, pushed_with_push]
  simp [vh_calls, pushed]

/-- Witness of `event_handle_data_handle_out_of_range`: handle `0xFFF0`, above
the maximum `0xFFEF` of the sample valuation. -/
theorem event_handle_data_handle_out_of_range_witness :
    (0xFFF0 > nrf51.RBC_MESH_VALUE_HANDLE_MAX)
      ∧ vh_calls (mesh_gatt_sd_ble_event_handle nrf51 collab_ok (state_conn 0) evt_zero
          (write_evt nrf51 14 (data_evt 0xFFF0 [7]))).calls = []
      ∧ pushed (mesh_gatt_sd_ble_event_handle nrf51 collab_ok (state_conn 0) evt_zero
          (write_evt nrf51 14 (data_evt 0xFFF0 [7]))).calls
          = [{ evt_zero with opcode := MESH_GATT_EVT_OPCODE_ERROR_INVALID_HANDLE }]
      ∧ (mesh_gatt_sd_ble_event_handle nrf51 collab_ok (state_conn 0) evt_zero
          (write_evt nrf51 14 (data_evt 0xFFF0 [7]))).send_response
          = true :=
  ⟨by decide,
    event_handle_data_handle_out_of_range nrf51 collab_ok (state_conn 0) evt_zero
      (write_evt nrf51 14 (data_evt 0xFFF0 [7]))
      rfl rfl rfl (by decide)⟩

/-- C6 as stated fails: a FlagSet for the Persistent flag with handle `0xFFF0`,
above the maximum `0xFFEF`, written to the value endpoint reaches the value
handler, which is called as `vh_value_persistence_set(0xFFF0, true)`; so does a
FlagRequest for the TransmitEnable flag, through `vh_value_is_enabled(0xFFF0)`. -/
theorem event_handle_flag_handle_out_of_range_reaches_vh :
    (0xFFF0 > nrf51.RBC_MESH_VALUE_HANDLE_MAX)
      ∧ vh_calls (mesh_gatt_sd_ble_event_handle nrf51 collab_ok (state_conn 0) evt_zero
          (write_evt nrf51 14
            (flag_evt MESH_GATT_EVT_OPCODE_FLAG_SET 0xFFF0
              MESH_GATT_EVT_FLAG_PERSISTENT 1))).calls
          = [Call.vh_value_persistence_set 0xFFF0 true]
      ∧ vh_calls (mesh_gatt_sd_ble_event_handle nrf51 collab_ok (state_conn 0) evt_zero
          (write_evt nrf51 14
            (flag_evt MESH_GATT_EVT_OPCODE_FLAG_REQ 0xFFF0
              MESH_GATT_EVT_FLAG_DO_TX 0))).calls
          = [Call.vh_value_is_enabled 0xFFF0] := by
  decide

/-- C6, amended. For every write to the value endpoint: a DataUpdate whose handle
is greater than `RBC_MESH_VALUE_HANDLE_MAX` is rejected before any value-handler
function is called. A FlagSet or FlagRequest is not compared with
`RBC_MESH_VALUE_HANDLE_MAX`: for a known flag kind the written handle, whatever
its value, is passed to exactly one value-handler function (the setter, enable
or disable, or the getter), except that a FlagRequest for the Persistent flag
with handle `RBC_MESH_INVALID_HANDLE` calls none; for an unknown flag kind no
value-handler function is called. -/
theorem event_handle_handle_range_check (c : Consts) (x : Collab) (s : mesh_state)
    (rsp_evt : mesh_gatt_evt_t) (p_ble_evt : ble_evt_t)
    (hw : p_ble_evt.evt_id = c.BLE_GATTS_EVT_WRITE)
    (hv : p_ble_evt.write.handle = s.ble_val_char_value_handle) :
    (p_ble_evt.write.data_gatt_evt.opcode = MESH_GATT_EVT_OPCODE_DATA →
        p_ble_evt.write.data_gatt_evt.data_update.handle > c.RBC_MESH_VALUE_HANDLE_MAX →
        vh_calls (mesh_gatt_sd_ble_event_handle c x s rsp_evt p_ble_evt).calls = [])
    ∧ (p_ble_evt.write.data_gatt_evt.opcode = MESH_GATT_EVT_OPCODE_FLAG_SET →
        p_ble_evt.write.data_gatt_evt.flag_update.flag = MESH_GATT_EVT_FLAG_PERSISTENT →
        vh_calls (mesh_gatt_sd_ble_event_handle c x s rsp_evt p_ble_evt).calls
          = [Call.vh_value_persistence_set p_ble_evt.write.data_gatt_evt.flag_update.handle
              (decide (p_ble_evt.write.data_gatt_evt.flag_update.value ≠ 0))])
    ∧ (p_ble_evt.write.data_gatt_evt.opcode = MESH_GATT_EVT_OPCODE_FLAG_SET →
        p_ble_evt.write.data_gatt_evt.flag_update.flag = MESH_GATT_EVT_FLAG_DO_TX →
        vh_calls (mesh_gatt_sd_ble_event_handle c x s rsp_evt p_ble_evt).calls
          = [if p_ble_evt.write.data_gatt_evt.flag_update.value ≠ 0
              then Call.vh_value_enable p_ble_evt.write.data_gatt_evt.flag_update.handle
              else Call.vh_value_disable p_ble_evt.write.data_gatt_evt.flag_update.handle])
    ∧ (p_ble_evt.write.data_gatt_evt.opcode = MESH_GATT_EVT_OPCODE_FLAG_REQ →
        p_ble_evt.write.data_gatt_evt.flag_update.flag = MESH_GATT_EVT_FLAG_PERSISTENT →
        vh_calls (mesh_gatt_sd_ble_event_handle c x s rsp_evt p_ble_evt).calls
          = if p_ble_evt.write.data_gatt_evt.flag_update.handle = c.RBC_MESH_INVALID_HANDLE
              then []
              else [Call.vh_value_persistence_get
                p_ble_evt.write.data_gatt_evt.flag_update.handle])
    ∧ (p_ble_evt.write.data_gatt_evt.opcode = MESH_GATT_EVT_OPCODE_FLAG_REQ →
        p_ble_evt.write.data_gatt_evt.flag_update.flag = MESH_GATT_EVT_FLAG_DO_TX →
        vh_calls (mesh_gatt_sd_ble_event_handle c x s rsp_evt p_ble_evt).calls
          = [Call.vh_value_is_enabled p_ble_evt.write.data_gatt_evt.flag_update.handle])
    ∧ ((p_ble_evt.write.data_gatt_evt.opcode = MESH_GATT_EVT_OPCODE_FLAG_SET
          ∨ p_ble_evt.write.data_gatt_evt.opcode = MESH_GATT_EVT_OPCODE_FLAG_REQ) →
        p_ble_evt.write.data_gatt_evt.flag_update.flag ≠ MESH_GATT_EVT_FLAG_PERSISTENT →
        p_ble_evt.write.data_gatt_evt.flag_update.flag ≠ MESH_GATT_EVT_FLAG_DO_TX →
        vh_calls (mesh_gatt_sd_ble_event_handle c x s rsp_evt p_ble_evt).calls = []) := by
  unfold mesh_gatt_sd_ble_event_handle
  simp only [hw, hv, if_true]
  rw [vh_calls_with_push]
  refine ⟨?_, ?_, ?_, ?_, ?_, ?_⟩
  · intro hop hh
    simp [hop, hh, vh_calls]
  · intro hop hf
    simp only [hop, hf]
    split_ifs <;> simp_all [vh_calls, Call.is_vh, MESH_GATT_EVT_OPCODE_FLAG_SET,
      MESH_GATT_EVT_OPCODE_DATA]
  · intro hop hf
    simp only [hop, hf]
    split_ifs <;> simp_all [vh_calls, Call.is_vh, MESH_GATT_EVT_OPCODE_FLAG_SET,
      MESH_GATT_EVT_OPCODE_DATA, MESH_GATT_EVT_FLAG_DO_TX, MESH_GATT_EVT_FLAG_PERSISTENT]
  · intro hop hf
    simp only [hop, hf]
    split_ifs <;> simp_all [vh_calls, Call.is_vh, MESH_GATT_EVT_OPCODE_FLAG_SET,
      MESH_GATT_EVT_OPCODE_FLAG_REQ, MESH_GATT_EVT_OPCODE_DATA]
  · intro hop hf
    simp only [hop, hf]
    split_ifs <;> simp_all [vh_calls, Call.is_vh, MESH_GATT_EVT_OPCODE_FLAG_SET,
      MESH_GATT_EVT_OPCODE_FLAG_REQ, MESH_GATT_EVT_OPCODE_DATA, MESH_GATT_EVT_FLAG_DO_TX,
      MESH_GATT_EVT_FLAG_PERSISTENT]
  · intro hop hf0 hf1
    rcases hop with hop | hop <;>
    · simp only [hop, hf0, hf1]
      split_ifs <;> simp_all [vh_calls, Call.is_vh, MESH_GATT_EVT_OPCODE_FLAG_SET,
        MESH_GATT_EVT_OPCODE_FLAG_REQ, MESH_GATT_EVT_OPCODE_DATA]

/-- Witness of `event_handle_handle_range_check`: a FlagSet for the Persistent
flag with handle `0xFFF0` and value 1 written to the value endpoint. -/
theorem event_handle_handle_range_check_witness :
    vh_calls (mesh_gatt_sd_ble_event_handle nrf51 collab_ok (state_conn 0) evt_zero
        (write_evt nrf51 14
          (flag_evt MESH_GATT_EVT_OPCODE_FLAG_SET 0xFFF0
            MESH_GATT_EVT_FLAG_PERSISTENT 1))).calls
      = [Call.vh_value_persistence_set 0xFFF0 true] :=
  (event_handle_handle_range_check nrf51 collab_ok (state_conn 0) evt_zero
    (write_evt nrf51 14
      (flag_evt MESH_GATT_EVT_OPCODE_FLAG_SET 0xFFF0 MESH_GATT_EVT_FLAG_PERSISTENT 1))
    rfl rfl).2.1 rfl rfl

/-- C7 as stated fails: for an accepted DataUpdate written to the value endpoint
the handler sets no response opcode. `send_response` stays false and the event
handed to `mesh_gatt_evt_push` is `rsp_evt` as it was at entry: with opcode 0
(DataUpdate, a request opcode) at entry that is what is pushed, with opcode 200
at entry that is. The same holds for a FlagSet that the value handler accepts. -/
theorem event_handle_accepted_write_sets_no_response :
    (mesh_gatt_sd_ble_event_handle nrf51 collab_ok (state_conn 0) evt_zero
        (write_evt nrf51 14 (data_evt 3 [7, 8]))).send_response = false
      ∧ pushed (mesh_gatt_sd_ble_event_handle nrf51 collab_ok (state_conn 0) evt_zero
          (write_evt nrf51 14 (data_evt 3 [7, 8]))).calls = [evt_zero]
      ∧ evt_zero.opcode = MESH_GATT_EVT_OPCODE_DATA
      ∧ pushed (mesh_gatt_sd_ble_event_handle nrf51 collab_ok (state_conn 0)
          (flag_evt 200 0 0 0) (write_evt nrf51 14 (data_evt 3 [7, 8]))).calls
          = [flag_evt 200 0 0 0]
      ∧ (mesh_gatt_sd_ble_event_handle nrf51 collab_ok (state_conn 0) evt_zero
          (write_evt nrf51 14
            (flag_evt MESH_GATT_EVT_OPCODE_FLAG_SET 3 MESH_GATT_EVT_FLAG_DO_TX 1))).send_response
          = false
      ∧ pushed (mesh_gatt_sd_ble_event_handle nrf51 collab_ok (state_conn 0) evt_zero
          (write_evt nrf51 14
            (flag_evt MESH_GATT_EVT_OPCODE_FLAG_SET 3 MESH_GATT_EVT_FLAG_DO_TX 1))).calls
          = [evt_zero] := by
  decide

/-- C7, amended. For every write to the value endpoint, the dispatch marks a
response (`send_response`) in every case but two, an accepted DataUpdate and a
FlagSet of a known flag kind that the value handler accepts. Whenever a response
is marked, exactly one event is handed to `mesh_gatt_evt_push`, it is that
response, and its opcode is FlagResponse or one of the error opcodes ErrorBusy,
ErrorNotFound, ErrorInvalidHandle, ErrorUnknownFlag, ErrorInvalidOpcode. In the
two cases without a marked response `rsp_evt` is never written. -/
theorem event_handle_response_opcode (c : Consts) (x : Collab) (s : mesh_state)
    (rsp_evt : mesh_gatt_evt_t) (p_ble_evt : ble_evt_t)
    (hw : p_ble_evt.evt_id = c.BLE_GATTS_EVT_WRITE)
    (hv : p_ble_evt.write.handle = s.ble_val_char_value_handle) :
    ((mesh_gatt_sd_ble_event_handle c x s rsp_evt p_ble_evt).send_response = true →
        pushed (mesh_gatt_sd_ble_event_handle c x s rsp_evt p_ble_evt).calls
          = [(mesh_gatt_sd_ble_event_handle c x s rsp_evt p_ble_evt).rsp_evt]
        ∧ ((mesh_gatt_sd_ble_event_handle c x s rsp_evt p_ble_evt).rsp_evt.opcode
            = MESH_GATT_EVT_OPCODE_FLAG_RSP
          ∨ (mesh_gatt_sd_ble_event_handle c x s rsp_evt p_ble_evt).rsp_evt.opcode
            = MESH_GATT_EVT_OPCODE_ERROR_BUSY
          ∨ (mesh_gatt_sd_ble_event_handle c x s rsp_evt p_ble_evt).rsp_evt.opcode
            = MESH_GATT_EVT_OPCODE_ERROR_NOT_FOUND
          ∨ (mesh_gatt_sd_ble_event_handle c x s rsp_evt p_ble_evt).rsp_evt.opcode
            = MESH_GATT_EVT_OPCODE_ERROR_INVALID_HANDLE
          ∨ (mesh_gatt_sd_ble_event_handle c x s rsp_evt p_ble_evt).rsp_evt.opcode
            = MESH_GATT_EVT_OPCODE_ERROR_UNKNOWN_FLAG
          ∨ (mesh_gatt_sd_ble_event_handle c x s rsp_evt p_ble_evt).rsp_evt.opcode
            = MESH_GATT_EVT_OPCODE_ERROR_INVALID_OPCODE))
    ∧ ((mesh_gatt_sd_ble_event_handle c x s rsp_evt p_ble_evt).send_response = false →
        (mesh_gatt_sd_ble_event_handle c x s rsp_evt p_ble_evt).rsp_evt = rsp_evt)
    ∧ ((mesh_gatt_sd_ble_event_handle c x s rsp_evt p_ble_evt).send_response = false ↔
        (p_ble_evt.write.data_gatt_evt.opcode = MESH_GATT_EVT_OPCODE_DATA
          ∧ p_ble_evt.write.data_gatt_evt.data_update.handle ≤ c.RBC_MESH_VALUE_HANDLE_MAX
          ∧ x.vh_local_update p_ble_evt.write.data_gatt_evt.data_update.handle
              p_ble_evt.write.data_gatt_evt.data_update.data
              p_ble_evt.write.data_gatt_evt.data_update.data_len ≠ c.VH_DATA_STATUS_UNKNOWN)
        ∨ (p_ble_evt.write.data_gatt_evt.opcode = MESH_GATT_EVT_OPCODE_FLAG_SET
          ∧ p_ble_evt.write.data_gatt_evt.flag_update.flag = MESH_GATT_EVT_FLAG_PERSISTENT
          ∧ x.vh_value_persistence_set p_ble_evt.write.data_gatt_evt.flag_update.handle
              (decide (p_ble_evt.write.data_gatt_evt.flag_update.value ≠ 0)) = c.NRF_SUCCESS)
        ∨ (p_ble_evt.write.data_gatt_evt.opcode = MESH_GATT_EVT_OPCODE_FLAG_SET
          ∧ p_ble_evt.write.data_gatt_evt.flag_update.flag = MESH_GATT_EVT_FLAG_DO_TX
          ∧ p_ble_evt.write.data_gatt_evt.flag_update.value ≠ 0
          ∧ x.vh_value_enable p_ble_evt.write.data_gatt_evt.flag_update.handle
              = c.NRF_SUCCESS)
        ∨ (p_ble_evt.write.data_gatt_evt.opcode = MESH_GATT_EVT_OPCODE_FLAG_SET
          ∧ p_ble_evt.write.data_gatt_evt.flag_update.flag = MESH_GATT_EVT_FLAG_DO_TX
          ∧ p_ble_evt.write.data_gatt_evt.flag_update.value = 0
          ∧ x.vh_value_disable p_ble_evt.write.data_gatt_evt.flag_update.handle
              = c.NRF_SUCCESS)) := by
  unfold mesh_gatt_sd_ble_event_handle
  simp only [hw, hv, if_true]
  rw [pushed_with_push]
  split_ifs <;> simp_all [pushed, MESH_GATT_EVT_OPCODE_DATA, MESH_GATT_EVT_OPCODE_FLAG_SET,
    MESH_GATT_EVT_OPCODE_FLAG_REQ, MESH_GATT_EVT_OPCODE_FLAG_RSP,
    MESH_GATT_EVT_OPCODE_ERROR_BUSY, MESH_GATT_EVT_OPCODE_ERROR_NOT_FOUND,
    MESH_GATT_EVT_OPCODE_ERROR_INVALID_HANDLE, MESH_GATT_EVT_OPCODE_ERROR_UNKNOWN_FLAG,
    MESH_GATT_EVT_OPCODE_ERROR_INVALID_OPCODE, MESH_GATT_EVT_FLAG_PERSISTENT,
    MESH_GATT_EVT_FLAG_DO_TX]

/-- Witness of `event_handle_response_opcode`: a FlagRequest for the
TransmitEnable flag of handle 3 written to the value endpoint marks a response,
and that response is the one event pushed. -/
theorem event_handle_response_opcode_witness :
    (mesh_gatt_sd_ble_event_handle nrf51 collab_ok (state_conn 0) evt_zero
        (write_evt nrf51 14
          (flag_evt MESH_GATT_EVT_OPCODE_FLAG_REQ 3 MESH_GATT_EVT_FLAG_DO_TX 0))).send_response
        = true
      ∧ pushed (mesh_gatt_sd_ble_event_handle nrf51 collab_ok (state_conn 0) evt_zero
          (write_evt nrf51 14
            (flag_evt MESH_GATT_EVT_OPCODE_FLAG_REQ 3 MESH_GATT_EVT_FLAG_DO_TX 0))).calls
        = [(mesh_gatt_sd_ble_event_handle nrf51 collab_ok (state_conn 0) evt_zero
            (write_evt nrf51 14
              (flag_evt MESH_GATT_EVT_OPCODE_FLAG_REQ 3 MESH_GATT_EVT_FLAG_DO_TX 0))).rsp_evt] :=
  ⟨by decide,
    ((event_handle_response_opcode nrf51 collab_ok (state_conn 0) evt_zero
      (write_evt nrf51 14 (flag_evt MESH_GATT_EVT_OPCODE_FLAG_REQ 3 MESH_GATT_EVT_FLAG_DO_TX 0))
      rfl rfl).1 (by decide)).1⟩

/-- C8. For every FlagRequest written to the value endpoint: for the Persistent
flag with a handle other than `RBC_MESH_INVALID_HANDLE`, a successful
`vh_value_persistence_get` gives the response FlagResponse with the request's
handle and flag and the reported persistence as value, a failed one gives
ErrorNotFound; for the TransmitEnable flag, a successful `vh_value_is_enabled`
gives FlagResponse with the request's handle and flag and the reported enabled
state as value, a failed one gives ErrorInvalidHandle; each calls that getter
and no other value-handler function. For any other flag kind the response is
ErrorUnknownFlag and no value-handler function is called. The response is the
one event handed to `mesh_gatt_evt_push`. -/
theorem event_handle_flag_request (c : Consts) (x : Collab) (s : mesh_state)
    (rsp_evt : mesh_gatt_evt_t) (p_ble_evt : ble_evt_t)
    (hw : p_ble_evt.evt_id = c.BLE_GATTS_EVT_WRITE)
    (hv : p_ble_evt.write.handle = s.ble_val_char_value_handle)
    (hop : p_ble_evt.write.data_gatt_evt.opcode = MESH_GATT_EVT_OPCODE_FLAG_REQ) :
    (p_ble_evt.write.data_gatt_evt.flag_update.flag = MESH_GATT_EVT_FLAG_PERSISTENT →
        p_ble_evt.write.data_gatt_evt.flag_update.handle ≠ c.RBC_MESH_INVALID_HANDLE →
        vh_calls (mesh_gatt_sd_ble_event_handle c x s rsp_evt p_ble_evt).calls
          = [Call.vh_value_persistence_get p_ble_evt.write.data_gatt_evt.flag_update.handle]
        ∧ ((x.vh_value_persistence_get p_ble_evt.write.data_gatt_evt.flag_update.handle).1
              = c.NRF_SUCCESS →
            pushed (mesh_gatt_sd_ble_event_handle c x s rsp_evt p_ble_evt).calls
              = [{ rsp_evt with
                   opcode := MESH_GATT_EVT_OPCODE_FLAG_RSP,
                   flag_update :=
                     { handle := p_ble_evt.write.data_gatt_evt.flag_update.handle,
                       flag := p_ble_evt.write.data_gatt_evt.flag_update.flag,
                       value := if (x.vh_value_persistence_get
                         p_ble_evt.write.data_gatt_evt.flag_update.handle).2 then 1 else 0 } }])
        ∧ ((x.vh_value_persistence_get p_ble_evt.write.data_gatt_evt.flag_update.handle).1
              ≠ c.NRF_SUCCESS →
            pushed (mesh_gatt_sd_ble_event_handle c x s rsp_evt p_ble_evt).calls
              = [{ rsp_evt with opcode := MESH_GATT_EVT_OPCODE_ERROR_NOT_FOUND }]))
    ∧ (p_ble_evt.write.data_gatt_evt.flag_update.flag = MESH_GATT_EVT_FLAG_DO_TX →
        vh_calls (mesh_gatt_sd_ble_event_handle c x s rsp_evt p_ble_evt).calls
          = [Call.vh_value_is_enabled p_ble_evt.write.data_gatt_evt.flag_update.handle]
        ∧ ((x.vh_value_is_enabled p_ble_evt.write.data_gatt_evt.flag_update.handle).1
              = c.NRF_SUCCESS →
            pushed (mesh_gatt_sd_ble_event_handle c x s rsp_evt p_ble_evt).calls
              = [{ rsp_evt with
                   opcode := MESH_GATT_EVT_OPCODE_FLAG_RSP,
                   flag_update :=
                     { handle := p_ble_evt.write.data_gatt_evt.flag_update.handle,
                       flag := p_ble_evt.write.data_gatt_evt.flag_update.flag,
                       value := if (x.vh_value_is_enabled
                         p_ble_evt.write.data_gatt_evt.flag_update.handle).2 then 1 else 0 } }])
        ∧ ((x.vh_value_is_enabled p_ble_evt.write.data_gatt_evt.flag_update.handle).1
              ≠ c.NRF_SUCCESS →
            pushed (mesh_gatt_sd_ble_event_handle c x s rsp_evt p_ble_evt).calls
              = [{ rsp_evt with opcode := MESH_GATT_EVT_OPCODE_ERROR_INVALID_HANDLE }]))
    ∧ (p_ble_evt.write.data_gatt_evt.flag_update.flag ≠ MESH_GATT_EVT_FLAG_PERSISTENT →
        p_ble_evt.write.data_gatt_evt.flag_update.flag ≠ MESH_GATT_EVT_FLAG_DO_TX →
        vh_calls (mesh_gatt_sd_ble_event_handle c x s rsp_evt p_ble_evt).calls = []
        ∧ pushed (mesh_gatt_sd_ble_event_handle c x s rsp_evt p_ble_evt).calls
          = [{ rsp_evt with opcode := MESH_GATT_EVT_OPCODE_ERROR_UNKNOWN_FLAG }]) := by
  have h0 : MESH_GATT_EVT_OPCODE_FLAG_REQ ≠ MESH_GATT_EVT_OPCODE_DATA := by decide
  have h1 : MESH_GATT_EVT_OPCODE_FLAG_REQ ≠ MESH_GATT_EVT_OPCODE_FLAG_SET := by decide
  have h2 : MESH_GATT_EVT_FLAG_DO_TX ≠ MESH_GATT_EVT_FLAG_PERSISTENT := by decide
  unfold mesh_gatt_sd_ble_event_handle
  simp only [hw, hv, hop, h0, h1, if_true, if_false]
  rw [vh_calls_with_push, pushed_with_push]
  refine ⟨?_, ?_, ?_⟩
  · intro hf hh
    simp only [hf, hh, if_true, if_false]
    split_ifs <;> simp_all [vh_calls, Call.is_vh, pushed]
  · intro hf
    simp only [hf, h2, if_true, if_false]
    split_ifs <;> simp_all [vh_calls, Call.is_vh, pushed]
  · intro hf0 hf1
    simp [hf0, hf1, vh_calls, pushed]

/-- Witness of `event_handle_flag_request`: a FlagRequest for the TransmitEnable
flag of handle 3; the value handler reports it enabled, so the pushed response
is FlagResponse with handle 3, flag TransmitEnable and value 1. -/
theorem event_handle_flag_request_witness :
    vh_calls (mesh_gatt_sd_ble_event_handle nrf51 collab_ok (state_conn 0) evt_zero
        (write_evt nrf51 14
          (flag_evt MESH_GATT_EVT_OPCODE_FLAG_REQ 3 MESH_GATT_EVT_FLAG_DO_TX 0))).calls
        = [Call.vh_value_is_enabled 3]
      ∧ pushed (mesh_gatt_sd_ble_event_handle nrf51 collab_ok (state_conn 0) evt_zero
          (write_evt nrf51 14
            (flag_evt MESH_GATT_EVT_OPCODE_FLAG_REQ 3 MESH_GATT_EVT_FLAG_DO_TX 0))).calls
        = [{ evt_zero with
             opcode := MESH_GATT_EVT_OPCODE_FLAG_RSP,
             flag_update := { handle := 3, flag := MESH_GATT_EVT_FLAG_DO_TX, value := 1 } }] :=
  ⟨((event_handle_flag_request nrf51 collab_ok (state_conn 0) evt_zero
      (write_evt nrf51 14 (flag_evt MESH_GATT_EVT_OPCODE_FLAG_REQ 3 MESH_GATT_EVT_FLAG_DO_TX 0))
      rfl rfl rfl).2.1 rfl).1,
   ((event_handle_flag_request nrf51 collab_ok (state_conn 0) evt_zero
      (write_evt nrf51 14 (flag_evt MESH_GATT_EVT_OPCODE_FLAG_REQ 3 MESH_GATT_EVT_FLAG_DO_TX 0))
      rfl rfl rfl).2.1 rfl).2.1 rfl⟩

/-- C9. For every FlagRequest for the Persistent flag written to the value
endpoint with handle `RBC_MESH_INVALID_HANDLE`, the response handed to
`mesh_gatt_evt_push` has opcode ErrorInvalidHandle, and neither
`vh_value_persistence_get` nor any other value-handler function is called. -/
theorem event_handle_flag_request_invalid_handle (c : Consts) (x : Collab) (s : mesh_state)
    (rsp_evt : mesh_gatt_evt_t) (p_ble_evt : ble_evt_t)
    (hw : p_ble_evt.evt_id = c.BLE_GATTS_EVT_WRITE)
    (hv : p_ble_evt.write.handle = s.ble_val_char_value_handle)
    (hop : p_ble_evt.write.data_gatt_evt.opcode = MESH_GATT_EVT_OPCODE_FLAG_REQ)
    (hf : p_ble_evt.write.data_gatt_evt.flag_update.flag = MESH_GATT_EVT_FLAG_PERSISTENT)
    (hh : p_ble_evt.write.data_gatt_evt.flag_update.handle = c.RBC_MESH_INVALID_HANDLE) :
    pushed (mesh_gatt_sd_ble_event_handle c x s rsp_evt p_ble_evt).calls
        = [{ rsp_evt with opcode := MESH_GATT_EVT_OPCODE_ERROR_INVALID_HANDLE }]
      ∧ vh_calls (mesh_gatt_sd_ble_event_handle c x s rsp_evt p_ble_evt).calls = []
      ∧ (mesh_gatt_sd_ble_event_handle c x s rsp_evt p_ble_evt).send_response = true := by
  have h0 : MESH_GATT_EVT_OPCODE_FLAG_REQ ≠ MESH_GATT_EVT_OPCODE_DATA := by decide
  have h1 : MESH_GATT_EVT_OPCODE_FLAG_REQ ≠ MESH_GATT_EVT_OPCODE_FLAG_SET := by decide
  unfold mesh_gatt_sd_ble_event_handle
  simp only [hw, hv, hop, hf, hh, h0, h1, if_true, if_false]
  rw [vh_calls_with_push, pushed_with_push]
  simp [vh_calls, pushed]

/-- Witness of `event_handle_flag_request_invalid_handle`: handle `0xFFFF`, the
invalid handle of the sample valuation, with a value handler that would have
answered. -/
theorem event_handle_flag_request_invalid_handle_witness :
    pushed (mesh_gatt_sd_ble_event_handle nrf51 collab_ok (state_conn 0) evt_zero
        (write_evt nrf51 14
          (flag_evt MESH_GATT_EVT_OPCODE_FLAG_REQ nrf51.RBC_MESH_INVALID_HANDLE
            MESH_GATT_EVT_FLAG_PERSISTENT 0))).calls
        = [{ evt_zero with opcode := MESH_GATT_EVT_OPCODE_ERROR_INVALID_HANDLE }]
      ∧ vh_calls (mesh_gatt_sd_ble_event_handle nrf51 collab_ok (state_conn 0) evt_zero
          (write_evt nrf51 14
            (flag_evt MESH_GATT_EVT_OPCODE_FLAG_REQ nrf51.RBC_MESH_INVALID_HANDLE
              MESH_GATT_EVT_FLAG_PERSISTENT 0))).calls = []
      ∧ (mesh_gatt_sd_ble_event_handle nrf51 collab_ok (state_conn 0) evt_zero
          (write_evt nrf51 14
            (flag_evt MESH_GATT_EVT_OPCODE_FLAG_REQ nrf51.RBC_MESH_INVALID_HANDLE
              MESH_GATT_EVT_FLAG_PERSISTENT 0))).send_response = true :=
  event_handle_flag_request_invalid_handle nrf51 collab_ok (state_conn 0) evt_zero
    (write_evt nrf51 14
      (flag_evt MESH_GATT_EVT_OPCODE_FLAG_REQ nrf51.RBC_MESH_INVALID_HANDLE
        MESH_GATT_EVT_FLAG_PERSISTENT 0))
    rfl rfl rfl rfl rfl

/-- C10. For every FlagSet written to the value endpoint: for the Persistent flag
the calls made before the push are exactly
`vh_value_persistence_set(handle, value != 0)`; for the TransmitEnable flag they
are exactly `vh_value_enable(handle)` when the value is non-zero and exactly
`vh_value_disable(handle)` when it is zero; when the called function does not
return `NRF_SUCCESS` the response handed to `mesh_gatt_evt_push` has opcode
ErrorInvalidHandle. For any other flag kind no call at all is made before the
push and the response has opcode ErrorUnknownFlag. -/
theorem event_handle_flag_set (c : Consts) (x : Collab) (s : mesh_state)
    (rsp_evt : mesh_gatt_evt_t) (p_ble_evt : ble_evt_t)
    (hw : p_ble_evt.evt_id = c.BLE_GATTS_EVT_WRITE)
    (hv : p_ble_evt.write.handle = s.ble_val_char_value_handle)
    (hop : p_ble_evt.write.data_gatt_evt.opcode = MESH_GATT_EVT_OPCODE_FLAG_SET) :
    (p_ble_evt.write.data_gatt_evt.flag_update.flag = MESH_GATT_EVT_FLAG_PERSISTENT →
        before_push (mesh_gatt_sd_ble_event_handle c x s rsp_evt p_ble_evt).calls
          = [Call.vh_value_persistence_set p_ble_evt.write.data_gatt_evt.flag_update.handle
              (decide (p_ble_evt.write.data_gatt_evt.flag_update.value ≠ 0))]
        ∧ (x.vh_value_persistence_set p_ble_evt.write.data_gatt_evt.flag_update.handle
              (decide (p_ble_evt.write.data_gatt_evt.flag_update.value ≠ 0)) ≠ c.NRF_SUCCESS →
            pushed (mesh_gatt_sd_ble_event_handle c x s rsp_evt p_ble_evt).calls
              = [{ rsp_evt with opcode := MESH_GATT_EVT_OPCODE_ERROR_INVALID_HANDLE }]))
    ∧ (p_ble_evt.write.data_gatt_evt.flag_update.flag = MESH_GATT_EVT_FLAG_DO_TX →
        p_ble_evt.write.data_gatt_evt.flag_update.value ≠ 0 →
        before_push (mesh_gatt_sd_ble_event_handle c x s rsp_evt p_ble_evt).calls
          = [Call.vh_value_enable p_ble_evt.write.data_gatt_evt.flag_update.handle]
        ∧ (x.vh_value_enable p_ble_evt.write.data_gatt_evt.flag_update.handle ≠ c.NRF_SUCCESS →
            pushed (mesh_gatt_sd_ble_event_handle c x s rsp_evt p_ble_evt).calls
              = [{ rsp_evt with opcode := MESH_GATT_EVT_OPCODE_ERROR_INVALID_HANDLE }]))
    ∧ (p_ble_evt.write.data_gatt_evt.flag_update.flag = MESH_GATT_EVT_FLAG_DO_TX →
        p_ble_evt.write.data_gatt_evt.flag_update.value = 0 →
        before_push (mesh_gatt_sd_ble_event_handle c x s rsp_evt p_ble_evt).calls
          = [Call.vh_value_disable p_ble_evt.write.data_gatt_evt.flag_update.handle]
        ∧ (x.vh_value_disable p_ble_evt.write.data_gatt_evt.flag_update.handle ≠ c.NRF_SUCCESS →
            pushed (mesh_gatt_sd_ble_event_handle c x s rsp_evt p_ble_evt).calls
              = [{ rsp_evt with opcode := MESH_GATT_EVT_OPCODE_ERROR_INVALID_HANDLE }]))
    ∧ (p_ble_evt.write.data_gatt_evt.flag_update.flag ≠ MESH_GATT_EVT_FLAG_PERSISTENT →
        p_ble_evt.write.data_gatt_evt.flag_update.flag ≠ MESH_GATT_EVT_FLAG_DO_TX →
        before_push (mesh_gatt_sd_ble_event_handle c x s rsp_evt p_ble_evt).calls = []
        ∧ pushed (mesh_gatt_sd_ble_event_handle c x s rsp_evt p_ble_evt).calls
          = [{ rsp_evt with opcode := MESH_GATT_EVT_OPCODE_ERROR_UNKNOWN_FLAG }]) := by
  have h0 : MESH_GATT_EVT_OPCODE_FLAG_SET ≠ MESH_GATT_EVT_OPCODE_DATA := by decide
  have h2 : MESH_GATT_EVT_FLAG_DO_TX ≠ MESH_GATT_EVT_FLAG_PERSISTENT := by decide
  unfold mesh_gatt_sd_ble_event_handle
  simp only [hw, hv, hop, h0, if_true, if_false]
  rw [pushed_with_push]
  refine ⟨?_, ?_, ?_, ?_⟩
  · intro hf
    simp only [hf, if_true, if_false]
    split_ifs <;> simp_all [before_push, List.takeWhile, Call.is_push, pushed]
  · intro hf hval
    simp only [hf, h2, hval, if_true, if_false]
    split_ifs <;> simp_all [before_push, List.takeWhile, Call.is_push, pushed]
  · intro hf hval
    simp only [hf, h2, hval, if_true, if_false]
    split_ifs <;> simp_all [before_push, List.takeWhile, Call.is_push, pushed]
  · intro hf0 hf1
    simp [hf0, hf1, before_push, List.takeWhile, Call.is_push, pushed]

/-- Witness of `event_handle_flag_set`: a FlagSet for the TransmitEnable flag of
handle 3 with value 1, and a value handler that fails: the only call before the
push is `vh_value_enable(3)` and the pushed response is ErrorInvalidHandle. -/
theorem event_handle_flag_set_witness :
    before_push (mesh_gatt_sd_ble_event_handle nrf51 collab_vh_fail (state_conn 0) evt_zero
        (write_evt nrf51 14
          (flag_evt MESH_GATT_EVT_OPCODE_FLAG_SET 3 MESH_GATT_EVT_FLAG_DO_TX 1))).calls
        = [Call.vh_value_enable 3]
      ∧ pushed (mesh_gatt_sd_ble_event_handle nrf51 collab_vh_fail (state_conn 0) evt_zero
          (write_evt nrf51 14
            (flag_evt MESH_GATT_EVT_OPCODE_FLAG_SET 3 MESH_GATT_EVT_FLAG_DO_TX 1))).calls
        = [{ evt_zero with opcode := MESH_GATT_EVT_OPCODE_ERROR_INVALID_HANDLE }] :=
  ⟨((event_handle_flag_set nrf51 collab_vh_fail (state_conn 0) evt_zero
      (write_evt nrf51 14 (flag_evt MESH_GATT_EVT_OPCODE_FLAG_SET 3 MESH_GATT_EVT_FLAG_DO_TX 1))
      rfl rfl rfl).2.1 rfl (by decide)).1,
   ((event_handle_flag_set nrf51 collab_vh_fail (state_conn 0) evt_zero
      (write_evt nrf51 14 (flag_evt MESH_GATT_EVT_OPCODE_FLAG_SET 3 MESH_GATT_EVT_FLAG_DO_TX 1))
      rfl rfl rfl).2.1 rfl (by decide)).2 (by decide)⟩

/-- Every run of `mesh_gatt_sd_ble_event_handle`, whatever the event and whether
or not a response was marked, hands exactly one event to `mesh_gatt_evt_push`:
the local `rsp_evt` as it stands at the end. -/
theorem event_handle_pushes_unconditionally (c : Consts) (x : Collab) (s : mesh_state)
    (rsp_evt : mesh_gatt_evt_t) (p_ble_evt : ble_evt_t) :
    pushed (mesh_gatt_sd_ble_event_handle c x s rsp_evt p_ble_evt).calls
      = [(mesh_gatt_sd_ble_event_handle c x s rsp_evt p_ble_evt).rsp_evt] := by
  unfold mesh_gatt_sd_ble_event_handle
  simp only []
  rw [pushed_with_push]
  by_cases hw : p_ble_evt.evt_id = c.BLE_GATTS_EVT_WRITE
  · by_cases hv : p_ble_evt.write.handle = s.ble_val_char_value_handle
    · simp only [hw, hv, if_true]
      split_ifs <;> simp [pushed]
    · simp only [hw, hv, if_true, if_false]
      split_ifs <;> simp [pushed]
  · simp [hw, pushed]

/-! ## Theorems: the initialisation `mesh_gatt_init` -/

/-- The validation of `mesh_md_char_add` rejects every metadata record whose
channel exceeds `MESH_CHANNEL_MAX` or whose interval differs from
`MESH_INTERVAL_MIN_MAX`, and lets through exactly the records with a channel
within range and the interval equal to `MESH_INTERVAL_MIN_MAX`. -/
theorem md_char_add_validation (c : Consts) (add : char_add_t) (s : mesh_state)
    (metadata : mesh_metadata_char_t) :
    ((metadata.mesh_channel > c.MESH_CHANNEL_MAX
        ∨ metadata.mesh_interval_min_ms ≠ c.MESH_INTERVAL_MIN_MAX) →
      mesh_md_char_add c add s metadata = (c.NRF_ERROR_INVALID_PARAM, s))
    ∧ ((metadata.mesh_channel ≤ c.MESH_CHANNEL_MAX
        ∧ metadata.mesh_interval_min_ms = c.MESH_INTERVAL_MIN_MAX) →
      mesh_md_char_add c add s metadata
        = (if add.err ≠ c.NRF_SUCCESS then c.NRF_ERROR_INTERNAL else c.NRF_SUCCESS,
           { s with ble_md_char_value_handle := add.value_handle })) := by
  unfold mesh_md_char_add
  constructor
  · intro h
    rw [if_pos]
    rcases h with h | h
    · exact Or.inl h
    · rcases Nat.lt_or_gt_of_ne h with h | h
      · exact Or.inr (Or.inl h)
      · exact Or.inr (Or.inr h)
  · rintro ⟨h1, h2⟩
    rw [if_neg]
    · split_ifs <;> rfl
    · intro h
      rcases h with h | h | h <;> omega

/-- C11, the code at the failing input. With channel 5 (at most
`MESH_CHANNEL_MAX`, 39) and interval 20 ms (at most `MESH_INTERVAL_MIN_MAX`,
60000) and a stack that accepts both characteristics, `mesh_gatt_init` returns
`NRF_ERROR_INVALID_PARAM` and changes nothing, because line 145 rejects every
interval below `MESH_INTERVAL_MIN_MAX`. Whatever the constants are, the
intervals 20 and 21 do not both pass for a channel that does. -/
theorem gatt_init_valid_config_rejected :
    mesh_gatt_init nrf51 { err := 0, value_handle := 11 } { err := 0, value_handle := 14 }
        { ble_md_char_value_handle := 0, ble_val_char_value_handle := 0,
          m_is_initialized := false, m_active_conn_handle := 0xFFFF }
        0x8E89BED6 5 20
      = (nrf51.NRF_ERROR_INVALID_PARAM,
         { ble_md_char_value_handle := 0, ble_val_char_value_handle := 0,
           m_is_initialized := false, m_active_conn_handle := 0xFFFF })
    ∧ 5 ≤ nrf51.MESH_CHANNEL_MAX
    ∧ 20 ≤ nrf51.MESH_INTERVAL_MIN_MAX
    ∧ nrf51.NRF_ERROR_INVALID_PARAM ≠ nrf51.NRF_SUCCESS
    ∧ ¬ ∃ (c : Consts) (add : char_add_t) (s : mesh_state) (a ch : Nat),
        mesh_md_char_add c add s
            { mesh_access_addr := a, mesh_interval_min_ms := 20, mesh_channel := ch }
          ≠ (c.NRF_ERROR_INVALID_PARAM, s)
        ∧ mesh_md_char_add c add s
            { mesh_access_addr := a, mesh_interval_min_ms := 21, mesh_channel := ch }
          ≠ (c.NRF_ERROR_INVALID_PARAM, s) := by
  refine ⟨by decide, by decide, by decide, by decide, ?_⟩
  rintro ⟨c, add, s, a, ch, h20, h21⟩
  have k20 := (md_char_add_validation c add s
    { mesh_access_addr := a, mesh_interval_min_ms := 20, mesh_channel := ch }).1
  have k21 := (md_char_add_validation c add s
    { mesh_access_addr := a, mesh_interval_min_ms := 21, mesh_channel := ch }).1
  by_cases hm : c.MESH_INTERVAL_MIN_MAX = 20
  · exact h21 (k21 (Or.inr (by simp [hm])))
  · exact h20 (k20 (Or.inr (fun h => hm h.symm)))

/-- When the validation lets the record through and the stack accepts both
characteristics, `mesh_gatt_init` returns `NRF_SUCCESS`, stores both value
handles and sets `m_is_initialized`. -/
theorem gatt_init_success (c : Consts) (md_add val_add : char_add_t) (s : mesh_state)
    (access_address channel interval_min_ms : Nat)
    (hch : channel ≤ c.MESH_CHANNEL_MAX)
    (hint : interval_min_ms = c.MESH_INTERVAL_MIN_MAX)
    (hmd : md_add.err = c.NRF_SUCCESS) (hval : val_add.err = c.NRF_SUCCESS) :
    mesh_gatt_init c md_add val_add s access_address channel interval_min_ms
      = (c.NRF_SUCCESS,
         { s with
           ble_md_char_value_handle := md_add.value_handle,
           ble_val_char_value_handle := val_add.value_handle,
           m_is_initialized := true }) := by
  have hv := (md_char_add_validation c md_add s
    { mesh_access_addr := access_address, mesh_interval_min_ms := interval_min_ms,
      mesh_channel := channel }).2 ⟨hch, hint⟩
  simp [mesh_gatt_init, hv, hmd, hval, mesh_value_char_add]

/-- Witness of `gatt_init_success`: channel 5 and the one interval that passes,
60000 ms. -/
theorem gatt_init_success_witness :
    mesh_gatt_init nrf51 { err := 0, value_handle := 11 } { err := 0, value_handle := 14 }
        (state_conn 0xFFFF) 0x8E89BED6 5 60000
      = (nrf51.NRF_SUCCESS,
         { state_conn 0xFFFF with
           ble_md_char_value_handle := 11,
           ble_val_char_value_handle := 14,
           m_is_initialized := true }) :=
  gatt_init_success nrf51 { err := 0, value_handle := 11 } { err := 0, value_handle := 14 }
    (state_conn 0xFFFF) 0x8E89BED6 5 60000 (by decide) rfl rfl rfl

end MeshGatt

namespace SerialHandler

/-! ## Theorems: the transmit path of `serial_handler_uart.c` -/

/-- The structural loop of `do_transmit` is the source's `while` loop: when
`fifo_pop` yields a frame, `do_transmit` writes its bytes, sets
`SERIAL_STATE_IDLE` and goes on with the rest of the queue; when `fifo_pop` fails
it returns with the state as it is. -/
theorem do_transmit_unfold (s : serial_t) :
    do_transmit s
      = match fifo_pop s.tx_fifo with
        | (some tx_buffer, tx_fifo) =>
          do_transmit
            { s with
              tx_fifo := tx_fifo,
              serial_state := serial_state_t.SERIAL_STATE_IDLE,
              uart := s.uart ++ transmit_bytes tx_buffer }
        | (none, _) => s := by
  obtain ⟨rx, ⟨n, elems⟩, st, buf, pp, pend, uart⟩ := s
  cases elems with
  | nil => simp [do_transmit, fifo_pop, do_transmit_loop]
  | cons f fs => simp [do_transmit, fifo_pop, do_transmit_loop]

/-- The bytes written and the state left by the loop of `do_transmit`. -/
theorem do_transmit_loop_eq (frames : List serial_data_t) (st : serial_state_t)
    (uart : List Nat) :
    do_transmit_loop frames st uart
      = (if frames = [] then st else serial_state_t.SERIAL_STATE_IDLE,
         uart ++ (frames.map transmit_bytes).flatten) := by
  induction frames generalizing st uart with
  | nil => simp [do_transmit_loop]
  | cons f fs ih => simp [do_transmit_loop, ih, List.append_assoc]

/-- Every run of `do_transmit` leaves the outbound queue empty, and writes to the
UART, for each queued frame in queue order, the first `length` bytes of the
frame, `length` being the frame's first byte. -/
theorem do_transmit_writes (s : serial_t) :
    (do_transmit s).tx_fifo.elems = []
      ∧ (do_transmit s).uart = s.uart ++ (s.tx_fifo.elems.map transmit_bytes).flatten
      ∧ (s.tx_fifo.elems ≠ [] → (do_transmit s).serial_state = serial_state_t.SERIAL_STATE_IDLE)
      ∧ (s.tx_fifo.elems = [] → do_transmit s = s) := by
  obtain ⟨rx, ⟨n, elems⟩, st, buf, pp, pend, uart⟩ := s
  simp only [do_transmit, do_transmit_loop_eq]
  refine ⟨trivial, trivial, ?_, ?_⟩
  · intro h
    simp [h]
  · intro h
    subst h
    simp

/-- C12. For every frame and every state in which the outbound queue is at
capacity, `serial_handler_event_send` returns false and the state is exactly
what it was: outbound queue, inbound queue, `serial_state`, pending work items
and everything else. -/
theorem event_send_full_no_effect (accept : Bool) (raw_data : serial_data_t)
    (evt : serial_evt_t) (s : serial_t) (hfull : fifo_is_full s.tx_fifo = true) :
    serial_handler_event_send accept raw_data evt s = (false, s) := by
  simp [serial_handler_event_send, hfull]

/-- Witness of `event_send_full_no_effect`: a fifth frame after four were
enqueued into the empty queue of capacity four. -/
theorem event_send_full_no_effect_witness :
    fifo_is_full (send_all true raw_garbage
        [⟨1, 5, []⟩, ⟨1, 6, []⟩, ⟨1, 7, []⟩, ⟨1, 8, []⟩] (serial_init uart8)).2.tx_fifo = true
      ∧ serial_handler_event_send true raw_garbage ⟨3, 0x84, [1, 2]⟩
          (send_all true raw_garbage
            [⟨1, 5, []⟩, ⟨1, 6, []⟩, ⟨1, 7, []⟩, ⟨1, 8, []⟩] (serial_init uart8)).2
        = (false, (send_all true raw_garbage
            [⟨1, 5, []⟩, ⟨1, 6, []⟩, ⟨1, 7, []⟩, ⟨1, 8, []⟩] (serial_init uart8)).2) :=
  ⟨by decide,
    event_send_full_no_effect true raw_garbage ⟨3, 0x84, [1, 2]⟩
      (send_all true raw_garbage
        [⟨1, 5, []⟩, ⟨1, 6, []⟩, ⟨1, 7, []⟩, ⟨1, 8, []⟩] (serial_init uart8)).2 (by decide)⟩

/-- C13, the code at the failing input. One frame with length byte 3 and payload
`0x84, 1, 2` is enqueued into the empty outbound queue and copied to the queue
with all its four bytes; the flush `do_transmit` then writes only the three
bytes `3, 0x84, 1` to the UART: the last payload byte is not sent. -/
theorem do_transmit_drops_last_byte :
    ((send_all true raw_garbage [⟨3, 0x84, [1, 2]⟩] (serial_init uart8)).2.tx_fifo.elems.map
        (fun f => f.buffer.take 4)) = [[3, 0x84, 1, 2]]
      ∧ (run_pending (send_all true raw_garbage [⟨3, 0x84, [1, 2]⟩]
          (serial_init uart8)).2).uart = [3, 0x84, 1]
      ∧ (run_pending (send_all true raw_garbage [⟨3, 0x84, [1, 2]⟩]
          (serial_init uart8)).2).uart ≠ [3, 0x84, 1, 2] := by
  decide

/-- The result of `serial_handler_event_send` in closed form. -/
theorem event_send_eq (accept : Bool) (raw_data : serial_data_t) (evt : serial_evt_t)
    (s : serial_t) :
    serial_handler_event_send accept raw_data evt s
      = if s.tx_fifo.array_len ≤ s.tx_fifo.elems.length then (false, s)
        else (true,
          { s with
            tx_fifo := { s.tx_fifo with elems := s.tx_fifo.elems ++ [queued_frame raw_data evt] },
            serial_state :=
              if s.serial_state = serial_state_t.SERIAL_STATE_IDLE ∧ accept = true
              then serial_state_t.SERIAL_STATE_TRANSMIT else s.serial_state,
            pending :=
              if s.serial_state = serial_state_t.SERIAL_STATE_IDLE ∧ accept = true
              then s.pending + 1 else s.pending }) := by
  obtain ⟨rx, ⟨n, elems⟩, st, buf, pp, pend, uart⟩ := s
  unfold serial_handler_event_send
  by_cases hfull : n ≤ elems.length
  · simp [fifo_is_full, hfull]
  · cases st <;> cases accept <;>
      simp [fifo_is_full, hfull, fifo_push, schedule_transmit, queued_frame]

/-- `serial_handler_event_send` returns true exactly when the outbound queue
holds fewer frames than its capacity, and then the queue holds one frame more. -/
theorem event_send_returns (accept : Bool) (raw_data : serial_data_t) (evt : serial_evt_t)
    (s : serial_t) :
    ((serial_handler_event_send accept raw_data evt s).1 = true
        ↔ s.tx_fifo.elems.length < s.tx_fifo.array_len)
      ∧ ((serial_handler_event_send accept raw_data evt s).1 = true →
          (serial_handler_event_send accept raw_data evt s).2.tx_fifo.array_len
              = s.tx_fifo.array_len
            ∧ (serial_handler_event_send accept raw_data evt s).2.tx_fifo.elems.length
              = s.tx_fifo.elems.length + 1) := by
  rw [event_send_eq]
  by_cases hfull : s.tx_fifo.array_len ≤ s.tx_fifo.elems.length
  · simp [hfull]
  · have hlt : s.tx_fifo.elems.length < s.tx_fifo.array_len := Nat.lt_of_not_le hfull
    simp [hfull, hlt]

/-- C16. Starting from the empty outbound queue of capacity 4 in the Idle state
with a scheduler that accepts work items, for any six frames: the first four
enqueues return true and the fifth returns false; one flush work item is then
pending, and after its run the outbound queue is empty and a sixth enqueue
returns true. In every state an enqueue succeeds exactly while fewer frames
than the capacity are queued. -/
theorem enqueue_four_then_flush (k : SerialConsts) (raw_data : serial_data_t)
    (e1 e2 e3 e4 e5 e6 : serial_evt_t) :
    (serial_init k).tx_fifo = { array_len := 4, elems := [] }
      ∧ (serial_init k).serial_state = serial_state_t.SERIAL_STATE_IDLE
      ∧ (send_all true raw_data [e1, e2, e3, e4, e5] (serial_init k)).1
          = [true, true, true, true, false]
      ∧ (send_all true raw_data [e1, e2, e3, e4, e5] (serial_init k)).2.pending = 1
      ∧ (run_pending
          (send_all true raw_data [e1, e2, e3, e4, e5] (serial_init k)).2).tx_fifo.elems = []
      ∧ (serial_handler_event_send true raw_data e6
          (run_pending (send_all true raw_data [e1, e2, e3, e4, e5] (serial_init k)).2)).1
          = true
      ∧ (∀ (accept : Bool) (evt : serial_evt_t) (s : serial_t),
          s.tx_fifo.array_len = SERIAL_QUEUE_SIZE →
          ((serial_handler_event_send accept raw_data evt s).1 = true
            ↔ s.tx_fifo.elems.length < 4)) := by
  refine ⟨rfl, rfl, ?_, ?_, ?_, ?_, ?_⟩
  · simp [send_all, event_send_eq, serial_init, SERIAL_QUEUE_SIZE]
  · simp [send_all, event_send_eq, serial_init, SERIAL_QUEUE_SIZE]
  · simp [run_pending, do_transmit]
  · simp [run_pending, do_transmit, send_all, event_send_eq, serial_init, SERIAL_QUEUE_SIZE]
  · intro accept evt s h
    have := (event_send_returns accept raw_data evt s).1
    rw [h] at this
    exact this

/-- C17. `serial_handler_command_get` returns false exactly when the inbound
queue is empty, and then the state and the caller's command buffer are what they
were. When the inbound queue is not empty it returns true, removes the oldest
frame and keeps the other frames in order, and changes nothing else in the
state. -/
theorem command_get_pops_oldest (s : serial_t) (cmd : List Nat) :
    ((serial_handler_command_get s cmd).1 = false ↔ s.rx_fifo.elems = [])
      ∧ (s.rx_fifo.elems = [] → serial_handler_command_get s cmd = (false, s, cmd))
      ∧ (∀ (temp : serial_data_t) (rest : List serial_data_t),
          s.rx_fifo.elems = temp :: rest →
            (serial_handler_command_get s cmd).1 = true
            ∧ (serial_handler_command_get s cmd).2.1
              = { s with rx_fifo := { s.rx_fifo with elems := rest } }) := by
  obtain ⟨⟨n, elems⟩, tx, st, buf, pp, pend, uart⟩ := s
  cases elems with
  | nil => simp [serial_handler_command_get, fifo_pop]
  | cons f fs =>
    simp only [serial_handler_command_get, fifo_pop]
    split_ifs <;> simp

/-- C19. For every frame enqueued with `serial_handler_event_send` while the
outbound queue is not full: the call returns true and the frame is appended at
the tail of the outbound queue. From the Idle state, if the scheduler accepts
the work item, one more `do_transmit` work item is pending and the state is
Transmitting, and nothing else changes; if the scheduler rejects it, the state
is Idle, the pending work items are what they were and the frame sits in the
queue. From the Transmitting state no work item is handed to the scheduler:
only the queue changes. -/
theorem event_send_schedules (accept : Bool) (raw_data : serial_data_t) (evt : serial_evt_t)
    (s : serial_t) (hroom : fifo_is_full s.tx_fifo = false) :
    (s.serial_state = serial_state_t.SERIAL_STATE_IDLE → accept = true →
        serial_handler_event_send accept raw_data evt s
          = (true,
             { s with
               tx_fifo :=
                 { s.tx_fifo with elems := s.tx_fifo.elems ++ [queued_frame raw_data evt] },
               serial_state := serial_state_t.SERIAL_STATE_TRANSMIT,
               pending := s.pending + 1 }))
      ∧ (s.serial_state = serial_state_t.SERIAL_STATE_IDLE → accept = false →
        serial_handler_event_send accept raw_data evt s
          = (true,
             { s with
               tx_fifo :=
                 { s.tx_fifo with elems := s.tx_fifo.elems ++ [queued_frame raw_data evt] },
               serial_state := serial_state_t.SERIAL_STATE_IDLE,
               pending := s.pending }))
      ∧ (s.serial_state = serial_state_t.SERIAL_STATE_TRANSMIT →
        serial_handler_event_send accept raw_data evt s
          = (true,
             { s with
               tx_fifo :=
                 { s.tx_fifo with elems := s.tx_fifo.elems ++ [queued_frame raw_data evt] },
               serial_state := serial_state_t.SERIAL_STATE_TRANSMIT,
               pending := s.pending })) := by
  have hlt : ¬ s.tx_fifo.array_len ≤ s.tx_fifo.elems.length := by
    simpa [fifo_is_full] using hroom
  rw [event_send_eq, if_neg hlt]
  refine ⟨?_, ?_, ?_⟩
  · intro hs ha
    simp [hs, ha]
  · intro hs ha
    simp [hs, ha]
  · intro hs
    simp [hs]

/-- Witness of `event_send_schedules`: the first frame sent from the initial
state, with a scheduler that accepts. -/
theorem event_send_schedules_witness :
    fifo_is_full (serial_init uart8).tx_fifo = false
      ∧ serial_handler_event_send true raw_garbage ⟨3, 0x84, [1, 2]⟩ (serial_init uart8)
        = (true,
           { serial_init uart8 with
             tx_fifo :=
               { (serial_init uart8).tx_fifo with
                 elems := (serial_init uart8).tx_fifo.elems
                   ++ [queued_frame raw_garbage ⟨3, 0x84, [1, 2]⟩] },
             serial_state := serial_state_t.SERIAL_STATE_TRANSMIT,
             pending := (serial_init uart8).pending + 1 }) :=
  ⟨by decide,
    (event_send_schedules true raw_garbage ⟨3, 0x84, [1, 2]⟩ (serial_init uart8)
      (by decide)).1 rfl rfl⟩

/-! ## Theorems: the flush scheduling invariant -/

/-- The invariant holds in the initial state. -/
theorem flush_inv_init (k : SerialConsts) : flush_inv (serial_init k) := by
  simp [flush_inv, serial_init]

/-- The invariant only looks at the outbound queue, the state and the pending
work items. -/
theorem flush_inv_congr (s t : serial_t) (h1 : t.tx_fifo = s.tx_fifo)
    (h2 : t.serial_state = s.serial_state) (h3 : t.pending = s.pending) :
    flush_inv s → flush_inv t := by
  simp [flush_inv, h1, h2, h3]

/-- `serial_handler_event_send` keeps the invariant. -/
theorem flush_inv_event_send (accept : Bool) (raw_data : serial_data_t) (evt : serial_evt_t)
    (s : serial_t) (h : flush_inv s) :
    flush_inv (serial_handler_event_send accept raw_data evt s).2 := by
  obtain ⟨h1, h2, h3⟩ := h
  rw [event_send_eq]
  by_cases hfull : s.tx_fifo.array_len ≤ s.tx_fifo.elems.length
  · simpa [hfull] using (show flush_inv s from ⟨h1, h2, h3⟩)
  · rw [if_neg hfull]
    cases hst : s.serial_state <;> cases accept <;> simp [flush_inv, hst] at h2 ⊢
    · omega
    · omega
    · exact ⟨h1, h2⟩
    · exact ⟨h1, h2⟩

/-- `char_rx` keeps the invariant. -/
theorem flush_inv_char_rx (k : SerialConsts) (accept : Bool) (raw_data : serial_data_t)
    (c : Nat) (s : serial_t) (h : flush_inv s) :
    flush_inv (char_rx k accept raw_data c s) := by
  unfold char_rx
  simp only []
  split_ifs
  · refine flush_inv_congr _ _ rfl rfl rfl (flush_inv_event_send accept raw_data _ _ ?_)
    exact flush_inv_congr s _ rfl rfl rfl h
  · exact flush_inv_congr s _ rfl rfl rfl h
  · exact flush_inv_congr s _ rfl rfl rfl h

/-- `serial_handler_command_get` keeps the invariant. -/
theorem flush_inv_command_get (s : serial_t) (cmd : List Nat) (h : flush_inv s) :
    flush_inv (serial_handler_command_get s cmd).2.1 := by
  unfold serial_handler_command_get
  split
  · exact h
  · split_ifs <;> exact flush_inv_congr s _ rfl rfl rfl h

/-- The run of a pending flush keeps the invariant, and leaves the state Idle
with nothing pending. -/
theorem flush_inv_run_pending (s : serial_t) (h : flush_inv s) (hp : 0 < s.pending) :
    flush_inv (run_pending s)
      ∧ (run_pending s).serial_state = serial_state_t.SERIAL_STATE_IDLE
      ∧ (run_pending s).pending = 0
      ∧ (run_pending s).tx_fifo.elems = [] := by
  obtain ⟨h1, h2, h3⟩ := h
  have hp1 : s.pending = 1 := by omega
  have hne : s.tx_fifo.elems ≠ [] := h3 hp1
  have hw := do_transmit_writes { s with pending := s.pending - 1 }
  have hidle : (run_pending s).serial_state = serial_state_t.SERIAL_STATE_IDLE :=
    hw.2.2.1 hne
  have hpend : (run_pending s).pending = 0 := by
    simp [run_pending, do_transmit, hp1]
  refine ⟨⟨?_, ?_, ?_⟩, hidle, hpend, hw.1⟩
  · omega
  · simp [hidle, hpend]
  · intro h'
    omega

/-- Every reachable state satisfies the invariant. -/
theorem reachable_flush_inv (k : SerialConsts) (s : serial_t) (h : Reachable k s) :
    flush_inv s := by
  induction h with
  | init => exact flush_inv_init k
  | event_send s accept raw_data evt _ ih => exact flush_inv_event_send accept raw_data evt s ih
  | char_rx s accept raw_data c _ ih => exact flush_inv_char_rx k accept raw_data c s ih
  | command_get s cmd _ ih => exact flush_inv_command_get s cmd ih
  | run_pending s _ hp ih => exact (flush_inv_run_pending s ih hp).1

/-- C20. In every state reachable from the initial state by steps of
`serial_handler_event_send`, `char_rx`, `serial_handler_command_get` and runs of
a pending `do_transmit` work item, the scheduler free to accept or reject: at
most one flush work item is pending, the state is Transmitting exactly when one
is pending, and the run of a pending flush ends Idle with nothing pending. -/
theorem reachable_one_flush_pending (k : SerialConsts) (s : serial_t) (h : Reachable k s) :
    s.pending ≤ 1
      ∧ (s.serial_state = serial_state_t.SERIAL_STATE_TRANSMIT ↔ s.pending = 1)
      ∧ (s.serial_state = serial_state_t.SERIAL_STATE_IDLE ↔ s.pending = 0)
      ∧ (0 < s.pending →
          (run_pending s).serial_state = serial_state_t.SERIAL_STATE_IDLE
          ∧ (run_pending s).pending = 0) := by
  have hinv := reachable_flush_inv k s h
  obtain ⟨h1, h2, _⟩ := hinv
  refine ⟨h1, h2, ?_, ?_⟩
  · constructor
    · intro hs
      have hne : ¬ s.pending = 1 := by
        intro h'
        have ht := h2.2 h'
        rw [hs] at ht
        cases ht
      omega
    · intro hp
      cases hst : s.serial_state
      · rfl
      · have := h2.1 hst
        omega
  · intro hp
    have hr := flush_inv_run_pending s (reachable_flush_inv k s h) hp
    exact ⟨hr.2.1, hr.2.2.1⟩

/-- Witness of `reachable_one_flush_pending`: the state after one frame was sent
from the initial state and the scheduler accepted the flush. -/
theorem reachable_one_flush_pending_witness :
    Reachable uart8
        (serial_handler_event_send true raw_garbage ⟨3, 0x84, [1, 2]⟩ (serial_init uart8)).2
      ∧ (serial_handler_event_send true raw_garbage ⟨3, 0x84, [1, 2]⟩
          (serial_init uart8)).2.pending ≤ 1
      ∧ ((serial_handler_event_send true raw_garbage ⟨3, 0x84, [1, 2]⟩
            (serial_init uart8)).2.serial_state = serial_state_t.SERIAL_STATE_TRANSMIT
          ↔ (serial_handler_event_send true raw_garbage ⟨3, 0x84, [1, 2]⟩
            (serial_init uart8)).2.pending = 1) :=
  ⟨Reachable.event_send _ true raw_garbage ⟨3, 0x84, [1, 2]⟩ Reachable.init,
    (reachable_one_flush_pending uart8 _
      (Reachable.event_send _ true raw_garbage ⟨3, 0x84, [1, 2]⟩ Reachable.init)).1,
    (reachable_one_flush_pending uart8 _
      (Reachable.event_send _ true raw_garbage ⟨3, 0x84, [1, 2]⟩ Reachable.init)).2.1⟩

/-! ## Theorems: the receive path `char_rx` -/

/-- C15 as stated fails: after a first byte 0 and one more byte the accumulated
length is 2, which differs from `1 + 0` and is below `sizeof(rx_buf)` (9 in the
sample valuation), and yet `char_rx` takes the frame as complete: it is pushed
to the inbound queue and the accumulation starts again. -/
theorem char_rx_zero_length_completes_at_two :
    (char_rx_all uart8 true raw_garbage [0] (serial_init uart8)).pp = 1
      ∧ (char_rx_all uart8 true raw_garbage [0] (serial_init uart8)).rx_fifo.elems = []
      ∧ (2 ≠ 1 + (char_rx_all uart8 true raw_garbage [0, 9]
            (serial_init uart8)).rx_buf.buffer.getD 0 0)
      ∧ 2 < sizeof_serial_data_t uart8
      ∧ (char_rx_all uart8 true raw_garbage [0, 9] (serial_init uart8)).rx_fifo.elems
          = [{ status_byte := 0, buffer := [0, 9, 0, 0, 0, 0, 0, 0] }]
      ∧ (char_rx_all uart8 true raw_garbage [0, 9] (serial_init uart8)).pp = 0 := by
  decide

/-- C15, amended. After `char_rx` has stored a byte, with `len` the accumulated
length, the frame is taken as complete if and only if `len` has reached
`sizeof(rx_buf)`, or at least 2 bytes have arrived and `len` is at least
`1 + buffer[0]`. When it is complete the accumulation starts again at the
beginning of the buffer and, if the inbound queue has room, the buffer is
pushed to its tail. In every other case nothing is pushed or sent and the
accumulation continues: only the stored byte and the advanced position
change. -/
theorem char_rx_completion (k : SerialConsts) (accept : Bool) (raw_data : serial_data_t)
    (c : Nat) (s : serial_t) :
    ((sizeof_serial_data_t k ≤ s.pp + 1
          ∨ (2 ≤ s.pp + 1 ∧ 1 + (s.rx_buf.buffer.set s.pp c).getD 0 0 ≤ s.pp + 1)) →
        (char_rx k accept raw_data c s).pp = 0
        ∧ (fifo_is_full s.rx_fifo = false →
            char_rx k accept raw_data c s
              = { s with
                  rx_fifo :=
                    { s.rx_fifo with
                      elems := s.rx_fifo.elems
                        ++ [{ s.rx_buf with buffer := s.rx_buf.buffer.set s.pp c }] },
                  rx_buf := { s.rx_buf with buffer := s.rx_buf.buffer.set s.pp c },
                  pp := 0 }))
      ∧ (¬ (sizeof_serial_data_t k ≤ s.pp + 1
          ∨ (2 ≤ s.pp + 1 ∧ 1 + (s.rx_buf.buffer.set s.pp c).getD 0 0 ≤ s.pp + 1)) →
        char_rx k accept raw_data c s
          = { s with
              rx_buf := { s.rx_buf with buffer := s.rx_buf.buffer.set s.pp c },
              pp := s.pp + 1 }) := by
  constructor
  · intro h
    have hend : end_of_command k (s.pp + 1) (s.rx_buf.buffer.set s.pp c) = true := by
      simp only [end_of_command, decide_eq_true_eq]
      rcases h with h | ⟨h1, h2⟩
      · exact Or.inl h
      · exact Or.inr ⟨by omega, by omega⟩
    constructor
    · unfold char_rx
      simp only [hend, if_true]
      split_ifs <;> rfl
    · intro hroom
      unfold char_rx
      simp [hend, fifo_push, hroom]
  · intro h
    have hend : end_of_command k (s.pp + 1) (s.rx_buf.buffer.set s.pp c) = false := by
      simp only [end_of_command, decide_eq_false_iff_not]
      rintro (h' | ⟨h1, h2⟩)
      · exact h (Or.inl h')
      · exact h (Or.inr ⟨by omega, by omega⟩)
    unfold char_rx
    simp [hend]

/-- C14 as stated fails: in a state in which the inbound queue and the outbound
queue are both full, the byte that completes the command `1, 7` leaves the
inbound queue unchanged and resets the accumulation, but no frame is added to
the outbound queue: the busy response is dropped. -/
theorem char_rx_busy_response_dropped :
    fifo_is_full state_both_full.rx_fifo = true
      ∧ fifo_is_full state_both_full.tx_fifo = true
      ∧ (char_rx uart8 true raw_garbage 1 state_both_full).pp = 1
      ∧ (char_rx uart8 true raw_garbage 7
          (char_rx uart8 true raw_garbage 1 state_both_full)).pp = 0
      ∧ (char_rx uart8 true raw_garbage 7
          (char_rx uart8 true raw_garbage 1 state_both_full)).rx_fifo
          = state_both_full.rx_fifo
      ∧ (char_rx uart8 true raw_garbage 7
          (char_rx uart8 true raw_garbage 1 state_both_full)).tx_fifo
          = state_both_full.tx_fifo := by
  decide

/-- C14, amended. For every state in which the inbound queue is full, when a
received byte completes a frame in `char_rx`: the inbound queue is left
unchanged and the accumulation is reset to the start of the buffer; if the
outbound queue has room, exactly one frame is appended to it, whose first four
bytes are the command response: length 3, opcode `SERIAL_EVT_OPCODE_CMD_RSP`,
the opcode byte of the rejected command and the status
`ACI_STATUS_ERROR_BUSY`; if the outbound queue is full too, it is left
unchanged. -/
theorem char_rx_inbound_full (k : SerialConsts) (accept : Bool) (raw_data : serial_data_t)
    (c : Nat) (s : serial_t)
    (hfull : fifo_is_full s.rx_fifo = true)
    (hend : end_of_command k (s.pp + 1) (s.rx_buf.buffer.set s.pp c) = true) :
    (char_rx k accept raw_data c s).rx_fifo = s.rx_fifo
      ∧ (char_rx k accept raw_data c s).pp = 0
      ∧ (fifo_is_full s.tx_fifo = false →
          (char_rx k accept raw_data c s).tx_fifo.elems
            = s.tx_fifo.elems
              ++ [queued_frame raw_data
                  { length := 3, opcode := k.SERIAL_EVT_OPCODE_CMD_RSP,
                    params := [(s.rx_buf.buffer.set s.pp c).getD 1 0,
                               k.ACI_STATUS_ERROR_BUSY] }]
          ∧ (queued_frame raw_data
                { length := 3, opcode := k.SERIAL_EVT_OPCODE_CMD_RSP,
                  params := [(s.rx_buf.buffer.set s.pp c).getD 1 0,
                             k.ACI_STATUS_ERROR_BUSY] }).buffer.take 4
              = [3, k.SERIAL_EVT_OPCODE_CMD_RSP, (s.rx_buf.buffer.set s.pp c).getD 1 0,
                 k.ACI_STATUS_ERROR_BUSY])
      ∧ (fifo_is_full s.tx_fifo = true →
          (char_rx k accept raw_data c s).tx_fifo = s.tx_fifo) := by
  unfold char_rx
  simp only [hend, if_true, fifo_push, hfull, event_send_eq]
  refine ⟨?_, trivial, ?_, ?_⟩
  · split_ifs <;> rfl
  · intro hroom
    have hlt : ¬ s.tx_fifo.array_len ≤ s.tx_fifo.elems.length := by
      simpa [fifo_is_full] using hroom
    simp [hlt, serial_cmd_opcode, queued_frame, memcpy, serial_evt_t.bytes]
  · intro hf
    have hle : s.tx_fifo.array_len ≤ s.tx_fifo.elems.length := by
      simpa [fifo_is_full] using hf
    simp [hle]

/-- Witness of `char_rx_inbound_full`: the inbound queue is full, the outbound
queue is empty, and the byte 7 completes the command `1, 7`; the response
`3, 0x84, 7, 0x87` is queued. -/
theorem char_rx_inbound_full_witness :
    (char_rx uart8 true raw_garbage 7
        (char_rx uart8 true raw_garbage 1 state_rx_full)).rx_fifo
        = (char_rx uart8 true raw_garbage 1 state_rx_full).rx_fifo
      ∧ (char_rx uart8 true raw_garbage 7
          (char_rx uart8 true raw_garbage 1 state_rx_full)).tx_fifo.elems
        = [{ status_byte := 0, buffer := [3, 0x84, 7, 0x87, 0xEE, 0xEE, 0xEE, 0xEE] }] :=
  ⟨(char_rx_inbound_full uart8 true raw_garbage 7
      (char_rx uart8 true raw_garbage 1 state_rx_full) (by decide) (by decide)).1,
   ((char_rx_inbound_full uart8 true raw_garbage 7
      (char_rx uart8 true raw_garbage 1 state_rx_full) (by decide) (by decide)).2.2.1
      (by decide)).1⟩

/-! ## Theorems: the receive and consume round trip -/

/-- Feeding a list of bytes and then one more byte. -/
theorem char_rx_all_append (k : SerialConsts) (accept : Bool) (raw_data : serial_data_t)
    (xs ys : List Nat) (s : serial_t) :
    char_rx_all k accept raw_data (xs ++ ys) s
      = char_rx_all k accept raw_data ys (char_rx_all k accept raw_data xs s) := by
  induction xs generalizing s with
  | nil => rfl
  | cons x xs ih => simp [char_rx_all, ih]

/-- A byte that does not complete the frame is stored and the position advances;
nothing else changes. -/
theorem char_rx_of_not_end (k : SerialConsts) (accept : Bool) (raw_data : serial_data_t)
    (c : Nat) (s : serial_t)
    (hend : end_of_command k (s.pp + 1) (s.rx_buf.buffer.set s.pp c) = false) :
    char_rx k accept raw_data c s
      = { s with
          rx_buf := { s.rx_buf with buffer := s.rx_buf.buffer.set s.pp c },
          pp := s.pp + 1 } := by
  unfold char_rx
  simp [hend]

/-- A byte that completes the frame while the inbound queue has room: the buffer
is pushed and the position is reset. -/
theorem char_rx_of_end_room (k : SerialConsts) (accept : Bool) (raw_data : serial_data_t)
    (c : Nat) (s : serial_t)
    (hend : end_of_command k (s.pp + 1) (s.rx_buf.buffer.set s.pp c) = true)
    (hroom : fifo_is_full s.rx_fifo = false) :
    char_rx k accept raw_data c s
      = { s with
          rx_fifo :=
            { s.rx_fifo with
              elems := s.rx_fifo.elems
                ++ [{ s.rx_buf with buffer := s.rx_buf.buffer.set s.pp c }] },
          rx_buf := { s.rx_buf with buffer := s.rx_buf.buffer.set s.pp c },
          pp := 0 } := by
  unfold char_rx
  simp [hend, fifo_push, hroom]

/-- Storing a byte right behind the bytes accumulated so far. -/
theorem set_behind_prefix (xs old : List Nat) (a : Nat) (h : xs.length < old.length) :
    (xs ++ old.drop xs.length).set xs.length a = (xs ++ [a]) ++ old.drop (xs.length + 1) := by
  rw [List.set_append_right _ _ (le_refl _), List.drop_eq_getElem_cons h]
  simp only [Nat.sub_self, List.set_cons_zero, List.append_assoc, List.singleton_append]

/-- The bytes of a frame with length byte `L`, as long as fewer than `L + 1` of
them have arrived, are accumulated at the start of the buffer and nothing else
happens. -/
theorem char_rx_all_accumulate (k : SerialConsts) (accept : Bool) (raw_data : serial_data_t)
    (L : Nat) (s : serial_t) (hfit : L + 1 ≤ k.buffer_len)
    (hbuf : s.rx_buf.buffer.length = k.buffer_len) (hpp : s.pp = 0) (xs : List Nat) :
    xs.length ≤ L → (∀ b ∈ xs.head?, b = L) →
    char_rx_all k accept raw_data xs s
      = { s with
          rx_buf := { s.rx_buf with buffer := xs ++ s.rx_buf.buffer.drop xs.length },
          pp := xs.length } := by
  induction xs using List.reverseRecOn with
  | nil =>
    intro _ _
    obtain ⟨rx, tx, st, ⟨sb, buf⟩, pp, pend, uart⟩ := s
    simp only [] at hpp
    subst hpp
    simp [char_rx_all]
  | append_singleton xs b ih =>
    intro hlen hhead
    have hlen' : xs.length + 1 ≤ L := by simpa using hlen
    have hhead' : ∀ b' ∈ xs.head?, b' = L := by
      intro b' hb'
      apply hhead
      cases xs with
      | nil => simp at hb'
      | cons x xs => simpa using hb'
    rw [char_rx_all_append, ih (by omega) hhead']
    simp only [char_rx_all]
    have hlt : xs.length < s.rx_buf.buffer.length := by omega
    have hset := set_behind_prefix xs s.rx_buf.buffer b hlt
    rw [char_rx_of_not_end]
    · simp only [hset, List.length_append, List.length_singleton]
    · simp only [hset, end_of_command, decide_eq_false_iff_not, sizeof_serial_data_t]
      rintro (h | ⟨h1, h2⟩)
      · omega
      · cases xs with
        | nil => simp at h1
        | cons x xs =>
          have hx : x = L := hhead' x (by simp)
          simp [hx] at h2
          simp at hlen'
          omega

/-- The state after a whole frame with length byte `L ≥ 1` and `L` payload bytes
was fed to `char_rx`, starting at the beginning of the buffer with room in the
inbound queue: the buffer, which starts with the bytes of the frame, was pushed
to the tail of the inbound queue and the position was reset. -/
theorem char_rx_all_frame (k : SerialConsts) (accept : Bool) (raw_data : serial_data_t)
    (L : Nat) (payload : List Nat) (s : serial_t)
    (hL : 1 ≤ L) (hlen : payload.length = L) (hfit : L + 1 ≤ k.buffer_len)
    (hbuf : s.rx_buf.buffer.length = k.buffer_len) (hpp : s.pp = 0)
    (hroom : fifo_is_full s.rx_fifo = false) :
    char_rx_all k accept raw_data (L :: payload) s
      = { s with
          rx_fifo :=
            { s.rx_fifo with
              elems := s.rx_fifo.elems
                ++ [{ s.rx_buf with
                      buffer := (L :: payload) ++ s.rx_buf.buffer.drop (L + 1) }] },
          rx_buf :=
            { s.rx_buf with buffer := (L :: payload) ++ s.rx_buf.buffer.drop (L + 1) },
          pp := 0 } := by
  have hne : payload ≠ [] := by
    intro h
    rw [h] at hlen
    simp at hlen
    omega
  have hsplit : L :: payload = (L :: payload.dropLast) ++ [payload.getLast hne] := by
    rw [List.cons_append, List.dropLast_append_getLast hne]
  have hpre : (L :: payload.dropLast).length = L := by
    simp [List.length_dropLast, hlen]
    omega
  have hacc := char_rx_all_accumulate k accept raw_data L s hfit hbuf hpp
    (L :: payload.dropLast) (by omega) (by simp)
  have hlt : (L :: payload.dropLast).length < s.rx_buf.buffer.length := by omega
  have hset := set_behind_prefix (L :: payload.dropLast) s.rx_buf.buffer
    (payload.getLast hne) hlt
  rw [hpre] at hset hacc
  rw [hsplit, char_rx_all_append, hacc]
  simp only [char_rx_all]
  rw [char_rx_of_end_room]
  · simp only [hset]
  · simp only [hset, end_of_command, decide_eq_true_eq]
    right
    constructor
    · omega
    · simp
  · exact hroom

/-- C18 as stated fails for `L = 0`: the well-formed frame that consists of the
length byte 0 alone, fed to `char_rx` from the initial state, is not queued on
its last byte, and a following `serial_handler_command_get` returns false. -/
theorem char_rx_empty_frame_not_queued :
    (char_rx_all uart8 true raw_garbage [0] (serial_init uart8)).rx_fifo.elems = []
      ∧ (serial_handler_command_get
          (char_rx_all uart8 true raw_garbage [0] (serial_init uart8)) [1, 1, 1, 1]).1 = false
      ∧ (serial_handler_command_get
          (char_rx_all uart8 true raw_garbage [0] (serial_init uart8)) [1, 1, 1, 1]).2.2
          = [1, 1, 1, 1] := by
  decide

/-- C18, amended. For every frame with a length byte `L` of at least 1 followed by
exactly `L` payload bytes, `L + 1` not exceeding the size of the frame array,
fed byte by byte to `char_rx` starting at the beginning of the accumulation
buffer with an empty inbound queue: nothing is queued before the last byte;
after the last byte exactly one frame is queued, which starts with the bytes
received, and the accumulation is reset; and a following
`serial_handler_command_get` returns true with the first `L + 1` bytes of the
command buffer equal to the bytes received. -/
theorem char_rx_command_get_round_trip (k : SerialConsts) (accept : Bool)
    (raw_data : serial_data_t) (L : Nat) (payload : List Nat) (s : serial_t) (cmd : List Nat)
    (hL : 1 ≤ L) (hlen : payload.length = L) (hfit : L + 1 ≤ k.buffer_len)
    (hbuf : s.rx_buf.buffer.length = k.buffer_len) (hpp : s.pp = 0)
    (hrx : s.rx_fifo.elems = []) (hcap : 0 < s.rx_fifo.array_len) :
    (∀ n, n < L + 1 →
        (char_rx_all k accept raw_data ((L :: payload).take n) s).rx_fifo.elems = [])
      ∧ (∃ f, (char_rx_all k accept raw_data (L :: payload) s).rx_fifo.elems = [f]
          ∧ f.buffer.take (L + 1) = L :: payload)
      ∧ (char_rx_all k accept raw_data (L :: payload) s).pp = 0
      ∧ (serial_handler_command_get
          (char_rx_all k accept raw_data (L :: payload) s) cmd).1 = true
      ∧ (serial_handler_command_get
          (char_rx_all k accept raw_data (L :: payload) s) cmd).2.1.rx_fifo.elems = []
      ∧ (serial_handler_command_get
          (char_rx_all k accept raw_data (L :: payload) s) cmd).2.2.take (L + 1)
          = L :: payload := by
  have hroom : fifo_is_full s.rx_fifo = false := by
    simp [fifo_is_full, hrx]
    omega
  have hframe := char_rx_all_frame k accept raw_data L payload s hL hlen hfit hbuf hpp hroom
  have hbytes : (L :: payload).length = L + 1 := by simp [hlen]
  have htake : ((L :: payload) ++ s.rx_buf.buffer.drop (L + 1)).take (L + 1) = L :: payload :=
    List.take_left' hbytes
  refine ⟨?_, ?_, ?_, ?_, ?_, ?_⟩
  · intro n hn
    have hacc := char_rx_all_accumulate k accept raw_data L s hfit hbuf hpp
      ((L :: payload).take n)
      (by rw [List.length_take]; omega)
      (by
        intro b hb
        rw [List.head?_take] at hb
        split_ifs at hb
        · simp at hb
        · simpa using hb.symm)
    rw [hacc]
    exact hrx
  · rw [hframe]
    exact ⟨{ s.rx_buf with buffer := (L :: payload) ++ s.rx_buf.buffer.drop (L + 1) },
      by simp [hrx], htake⟩
  · rw [hframe]
  · rw [hframe]
    simp [serial_handler_command_get, fifo_pop, hrx, SERIAL_LENGTH_POS]
    split_ifs <;> rfl
  · rw [hframe]
    simp [serial_handler_command_get, fifo_pop, hrx, SERIAL_LENGTH_POS]
    split_ifs <;> rfl
  · rw [hframe]
    have hpos : 0 < L := hL
    simp only [serial_handler_command_get, fifo_pop, hrx, SERIAL_LENGTH_POS, List.nil_append,
      List.cons_append, List.getD_cons_zero, hpos, gt_iff_lt, if_true]
    simp only [memcpy]
    rw [← List.cons_append, htake]
    exact List.take_left' hbytes

/-- Witness of `char_rx_command_get_round_trip`: the frame `2, 9, 7` received
from the initial state. -/
theorem char_rx_command_get_round_trip_witness :
    (serial_handler_command_get
        (char_rx_all uart8 true raw_garbage [2, 9, 7] (serial_init uart8))
        [1, 1, 1, 1, 1]).1 = true
      ∧ (serial_handler_command_get
          (char_rx_all uart8 true raw_garbage [2, 9, 7] (serial_init uart8))
          [1, 1, 1, 1, 1]).2.2.take (2 + 1) = [2, 9, 7] :=
  ⟨(char_rx_command_get_round_trip uart8 true raw_garbage 2 [9, 7] (serial_init uart8)
      [1, 1, 1, 1, 1] (by decide) rfl (by decide) rfl rfl rfl (by decide)).2.2.2.1,
   (char_rx_command_get_round_trip uart8 true raw_garbage 2 [9, 7] (serial_init uart8)
      [1, 1, 1, 1, 1] (by decide) rfl (by decide) rfl rfl rfl (by decide)).2.2.2.2.2⟩

/-! ## Theorems: what the flush writes -/

/-- For every state, the run of `do_transmit` writes to the UART, frame by frame
in queue order, the first `length` bytes of each queued frame, `length` being
the first byte of the frame: the length byte and `length - 1` payload bytes. It
leaves the outbound queue empty. -/
theorem do_transmit_output (s : serial_t) :
    (do_transmit s).uart
        = s.uart ++ (s.tx_fifo.elems.map (fun f => f.buffer.take (f.buffer.headD 0))).flatten
      ∧ (do_transmit s).tx_fifo.elems = [] := by
  have h := do_transmit_writes s
  exact ⟨h.2.1, h.1⟩

end SerialHandler

namespace SerialHandler

/-! ## Theorems: no stranded frame under an accepting scheduler -/

/-- A state reachable with an accepting scheduler is reachable. -/
theorem reachable_of_accepting (k : SerialConsts) (s : serial_t) (h : ReachableAccepting k s) :
    Reachable k s := by
  induction h with
  | init => exact Reachable.init
  | event_send s raw_data evt _ ih => exact Reachable.event_send s true raw_data evt ih
  | char_rx s raw_data c _ ih => exact Reachable.char_rx s true raw_data c ih
  | command_get s cmd _ ih => exact Reachable.command_get s cmd ih
  | run_pending s _ hp ih => exact Reachable.run_pending s ih hp

/-- With an accepting scheduler, `serial_handler_event_send` keeps: a non-empty
outbound queue has a pending flush. -/
theorem pending_of_queued_event_send (raw_data : serial_data_t) (evt : serial_evt_t)
    (s : serial_t) (hinv : flush_inv s) (h : s.tx_fifo.elems ≠ [] → s.pending = 1) :
    (serial_handler_event_send true raw_data evt s).2.tx_fifo.elems ≠ [] →
      (serial_handler_event_send true raw_data evt s).2.pending = 1 := by
  obtain ⟨h1, h2, _⟩ := hinv
  rw [event_send_eq]
  by_cases hfull : s.tx_fifo.array_len ≤ s.tx_fifo.elems.length
  · simpa [hfull] using h
  · rw [if_neg hfull]
    cases hst : s.serial_state
    · have hne : ¬ s.pending = 1 := by
        intro h'
        have ht := h2.2 h'
        rw [hst] at ht
        cases ht
      intro _
      simp
      omega
    · intro _
      simpa [hst] using h2.1 hst

/-- With an accepting scheduler, in every reachable state a non-empty outbound
queue has a pending flush. -/
theorem accepting_pending_of_queued (k : SerialConsts) (s : serial_t)
    (h : ReachableAccepting k s) : s.tx_fifo.elems ≠ [] → s.pending = 1 := by
  induction h with
  | init => simp [serial_init]
  | event_send s raw_data evt hs ih =>
    exact pending_of_queued_event_send raw_data evt s
      (reachable_flush_inv k s (reachable_of_accepting k s hs)) ih
  | char_rx s raw_data c hs ih =>
    have hinv := reachable_flush_inv k s (reachable_of_accepting k s hs)
    unfold char_rx
    simp only []
    split_ifs
    · exact pending_of_queued_event_send raw_data _ _
        (flush_inv_congr s _ rfl rfl rfl hinv) ih
    · exact ih
    · exact ih
  | command_get s cmd _ ih =>
    unfold serial_handler_command_get
    split
    · exact ih
    · split_ifs <;> exact ih
  | run_pending s _ _ _ =>
    intro hne
    exact absurd (do_transmit_writes { s with pending := s.pending - 1 }).1 hne

/-- C21. Provided the external scheduler never rejects a work item, in every
state reachable from the initial state by steps of `serial_handler_event_send`,
`char_rx`, `serial_handler_command_get` and runs of a pending `do_transmit`, a
non-empty outbound queue implies that a flush work item is pending (exactly
one); and every run of `do_transmit`, from any state, ends with the outbound
queue empty. -/
theorem accepting_no_stranded_frame (k : SerialConsts) (s : serial_t)
    (h : ReachableAccepting k s) :
    (s.tx_fifo.elems ≠ [] → 0 < s.pending ∧ s.pending = 1)
      ∧ (run_pending s).tx_fifo.elems = []
      ∧ (∀ t : serial_t, (do_transmit t).tx_fifo.elems = []) := by
  refine ⟨?_, ?_, ?_⟩
  · intro hne
    have hp := accepting_pending_of_queued k s h hne
    exact ⟨by omega, hp⟩
  · exact (do_transmit_writes { s with pending := s.pending - 1 }).1
  · intro t
    exact (do_transmit_writes t).1

/-- Witness of `accepting_no_stranded_frame`: the state after two frames were sent
from the initial state holds two frames and one pending flush. -/
theorem accepting_no_stranded_frame_witness :
    ReachableAccepting uart8
        (send_all true raw_garbage [⟨3, 0x84, [1, 2]⟩, ⟨1, 5, []⟩] (serial_init uart8)).2
      ∧ (send_all true raw_garbage [⟨3, 0x84, [1, 2]⟩, ⟨1, 5, []⟩]
          (serial_init uart8)).2.tx_fifo.elems.length = 2
      ∧ (send_all true raw_garbage [⟨3, 0x84, [1, 2]⟩, ⟨1, 5, []⟩]
          (serial_init uart8)).2.pending = 1 :=
  ⟨ReachableAccepting.event_send _ raw_garbage ⟨1, 5, []⟩
      (ReachableAccepting.event_send _ raw_garbage ⟨3, 0x84, [1, 2]⟩ ReachableAccepting.init),
    by decide,
    ((accepting_no_stranded_frame uart8 _
      (ReachableAccepting.event_send _ raw_garbage ⟨1, 5, []⟩
        (ReachableAccepting.event_send _ raw_garbage ⟨3, 0x84, [1, 2]⟩
          ReachableAccepting.init))).1 (by decide)).2⟩

/-- When the scheduler rejects the work item, the frame is queued with no flush
pending and the state Idle: sent from the initial state, the frame stays in the
queue until a later enqueue is accepted. -/
theorem rejected_flush_strands_frame :
    (serial_handler_event_send false raw_garbage ⟨3, 0x84, [1, 2]⟩
        (serial_init uart8)).2.tx_fifo.elems
        = [{ status_byte := 0, buffer := [3, 0x84, 1, 2, 0xEE, 0xEE, 0xEE, 0xEE] }]
      ∧ (serial_handler_event_send false raw_garbage ⟨3, 0x84, [1, 2]⟩
          (serial_init uart8)).2.pending = 0
      ∧ (serial_handler_event_send false raw_garbage ⟨3, 0x84, [1, 2]⟩
          (serial_init uart8)).2.serial_state = serial_state_t.SERIAL_STATE_IDLE := by
  decide

/-! ## Theorems: the bound of the reception buffer -/

/-- C24, the code at the failing input. A first byte announcing the length 255 and
seven more bytes are fed to `char_rx` from the initial state, with a frame array
of 8 bytes. The array is then full, and yet the frame is not completed and the
position is not reset: it stands at index 8, one past the last element of the
array, which is where the ninth byte is stored. The frame is completed only by
that ninth byte, when the accumulated length reaches `sizeof(rx_buf)`, 9. -/
theorem char_rx_stores_past_array :
    (char_rx_all uart8 true raw_garbage [255, 1, 2, 3, 4, 5, 6, 7]
        (serial_init uart8)).rx_buf.buffer.length = uart8.buffer_len
      ∧ (char_rx_all uart8 true raw_garbage [255, 1, 2, 3, 4, 5, 6, 7]
          (serial_init uart8)).pp = 8
      ∧ ¬ ((char_rx_all uart8 true raw_garbage [255, 1, 2, 3, 4, 5, 6, 7]
            (serial_init uart8)).pp
          < (char_rx_all uart8 true raw_garbage [255, 1, 2, 3, 4, 5, 6, 7]
            (serial_init uart8)).rx_buf.buffer.length)
      ∧ (char_rx_all uart8 true raw_garbage [255, 1, 2, 3, 4, 5, 6, 7]
          (serial_init uart8)).rx_fifo.elems = []
      ∧ sizeof_serial_data_t uart8 = 9
      ∧ (char_rx_all uart8 true raw_garbage [255, 1, 2, 3, 4, 5, 6, 7, 8]
          (serial_init uart8)).rx_fifo.elems
          = [{ status_byte := 0, buffer := [255, 1, 2, 3, 4, 5, 6, 7] }]
      ∧ (char_rx_all uart8 true raw_garbage [255, 1, 2, 3, 4, 5, 6, 7, 8]
          (serial_init uart8)).pp = 0 := by
  decide

/-- Whatever the sizes are, the byte that fills the frame array does not complete
a frame whose first byte announces at least the size of the array: the position
then stands at the size of the array, the index at which the next byte is
stored. -/
theorem char_rx_array_full_not_complete (k : SerialConsts) (accept : Bool)
    (raw_data : serial_data_t) (c : Nat) (s : serial_t)
    (hpp : s.pp + 1 = k.buffer_len) (h1 : 1 ≤ s.pp)
    (hb : k.buffer_len ≤ s.rx_buf.buffer.getD 0 0) :
    char_rx k accept raw_data c s
        = { s with
            rx_buf := { s.rx_buf with buffer := s.rx_buf.buffer.set s.pp c },
            pp := k.buffer_len }
      ∧ (char_rx k accept raw_data c s).rx_fifo = s.rx_fifo := by
  have hne : s.pp ≠ 0 := by omega
  have h0 : (s.rx_buf.buffer.set s.pp c).getD 0 0 = s.rx_buf.buffer.getD 0 0 := by
    simp [List.getD_eq_getElem?_getD, List.getElem?_set_ne hne]
  have hend : end_of_command k (s.pp + 1) (s.rx_buf.buffer.set s.pp c) = false := by
    simp only [end_of_command, decide_eq_false_iff_not, sizeof_serial_data_t, h0]
    rintro (h | ⟨_, h⟩) <;> omega
  rw [char_rx_of_not_end k accept raw_data c s hend, hpp]
  exact ⟨rfl, rfl⟩

/-- Witness of `char_rx_array_full_not_complete`: the eighth byte of a frame that
announces the length 255, with a frame array of 8 bytes. -/
theorem char_rx_array_full_not_complete_witness :
    (char_rx uart8 true raw_garbage 7
        (char_rx_all uart8 true raw_garbage [255, 1, 2, 3, 4, 5, 6] (serial_init uart8))).pp
      = uart8.buffer_len :=
  congrArg serial_t.pp
    (char_rx_array_full_not_complete uart8 true raw_garbage 7
      (char_rx_all uart8 true raw_garbage [255, 1, 2, 3, 4, 5, 6] (serial_init uart8))
      (by decide) (by decide) (by decide)).1

end SerialHandler

namespace MeshGatt

/-! ## Theorems: `mesh_gatt_value_set` -/

/-- C22, the code at the failing inputs. With the connection handle 0, a set
connection, and a length within range, `mesh_gatt_value_set` returns
`BLE_ERROR_INVALID_CONN_HANDLE` and hands nothing to the outbound push. With the
connection unset (`CONN_HANDLE_INVALID`, `0xFFFF`) it does not return that error
here: it hands the DataUpdate event to the push, which queries the transmit
slots and notifies. -/
theorem value_set_tests_zero_handle :
    mesh_gatt_value_set nrf51 collab_ok (state_conn 0) evt_zero 3 [7, 8] 2
        = { ret := nrf51.BLE_ERROR_INVALID_CONN_HANDLE, calls := [] }
      ∧ (0 ≠ nrf51.CONN_HANDLE_INVALID ∧ 2 ≤ nrf51.RBC_MESH_VALUE_MAX_LEN)
      ∧ mesh_gatt_value_set nrf51 collab_ok (state_conn nrf51.CONN_HANDLE_INVALID)
          evt_zero 3 [7, 8] 2
        = { ret := 0,
            calls := [Call.mesh_gatt_evt_push
                        { opcode := MESH_GATT_EVT_OPCODE_DATA,
                          data_update := { handle := 3, data_len := 2, data := [7, 8] },
                          flag_update := evt_zero.flag_update },
                      Call.sd_ble_tx_buffer_count_get,
                      Call.sd_ble_gatts_hvx 0xFFFF 0xFFFF] } := by
  decide

/-- For every handle, data and length: when the length exceeds
`RBC_MESH_VALUE_MAX_LEN`, `mesh_gatt_value_set` returns
`NRF_ERROR_INVALID_LENGTH` and calls nothing; otherwise, when
`m_active_conn_handle` is zero, it returns `BLE_ERROR_INVALID_CONN_HANDLE` and
calls nothing; otherwise it hands to `mesh_gatt_evt_push` exactly one event, a
DataUpdate with the given handle, the given length and the first `length` data
bytes, and returns what the push returns. -/
theorem value_set_cases (c : Consts) (x : Collab) (s : mesh_state) (gatt_evt : mesh_gatt_evt_t)
    (handle : Nat) (data : List Nat) (length : Nat) :
    (length > c.RBC_MESH_VALUE_MAX_LEN →
        mesh_gatt_value_set c x s gatt_evt handle data length
          = { ret := c.NRF_ERROR_INVALID_LENGTH, calls := [] })
      ∧ (length ≤ c.RBC_MESH_VALUE_MAX_LEN → s.m_active_conn_handle = 0 →
        mesh_gatt_value_set c x s gatt_evt handle data length
          = { ret := c.BLE_ERROR_INVALID_CONN_HANDLE, calls := [] })
      ∧ (length ≤ c.RBC_MESH_VALUE_MAX_LEN → s.m_active_conn_handle ≠ 0 →
        length ≤ data.length →
        ∃ e, pushed (mesh_gatt_value_set c x s gatt_evt handle data length).calls = [e]
          ∧ e.opcode = MESH_GATT_EVT_OPCODE_DATA
          ∧ e.data_update.handle = handle
          ∧ e.data_update.data_len = length
          ∧ e.data_update.data.take length = data.take length
          ∧ (mesh_gatt_value_set c x s gatt_evt handle data length).ret
              = (mesh_gatt_evt_push c x s e).ret) := by
  refine ⟨?_, ?_, ?_⟩
  · intro h
    simp [mesh_gatt_value_set, h]
  · intro h h0
    have h' : ¬ length > c.RBC_MESH_VALUE_MAX_LEN := Nat.not_lt.mpr h
    simp [mesh_gatt_value_set, h', h0]
  · intro h h0 hd
    have h' : ¬ length > c.RBC_MESH_VALUE_MAX_LEN := Nat.not_lt.mpr h
    refine ⟨{ gatt_evt with
              opcode := MESH_GATT_EVT_OPCODE_DATA,
              data_update :=
                { handle := handle, data_len := length,
                  data := data.take length ++ gatt_evt.data_update.data.drop length } },
      ?_, rfl, rfl, rfl, ?_, ?_⟩
    · simp only [mesh_gatt_value_set, h', h0, if_false, ne_eq, not_false_eq_true, if_true]
      simp [pushed, pushed_evt_push]
    · exact List.take_left' (by simp [hd])
    · simp [mesh_gatt_value_set, h', h0]

/-- Witness of `value_set_cases`: connection handle 5, handle 3, bytes 7, 8. -/
theorem value_set_cases_witness :
    ∃ e, pushed (mesh_gatt_value_set nrf51 collab_ok (state_conn 5) evt_zero 3 [7, 8] 2).calls
          = [e]
      ∧ e.opcode = MESH_GATT_EVT_OPCODE_DATA
      ∧ e.data_update.handle = 3
      ∧ e.data_update.data_len = 2
      ∧ e.data_update.data.take 2 = [7, 8].take 2
      ∧ (mesh_gatt_value_set nrf51 collab_ok (state_conn 5) evt_zero 3 [7, 8] 2).ret
          = (mesh_gatt_evt_push nrf51 collab_ok (state_conn 5) e).ret :=
  (value_set_cases nrf51 collab_ok (state_conn 5) evt_zero 3 [7, 8] 2).2.2
    (by decide) (by decide) (by decide)

/-! ## Theorems: events that the dispatch does not handle -/

/-- C23, the code at the failing inputs. For an event that is not a write (event
id `0x10`) and for a write to an attribute that is neither endpoint (attribute
99), with the connection unset and a free transmit slot,
`mesh_gatt_sd_ble_event_handle` calls no value-handler or radio function and
leaves `send_response` false, and still invokes `mesh_gatt_evt_push` on the
never-written `rsp_evt`, which queries the transmit slots and notifies. -/
theorem event_handle_unhandled_event_still_pushes :
    mesh_gatt_sd_ble_event_handle nrf51 collab_ok (state_conn nrf51.CONN_HANDLE_INVALID)
        evt_zero { write_evt nrf51 14 evt_zero with evt_id := 0x10 }
        = { rsp_evt := evt_zero, send_response := false,
            calls := [Call.mesh_gatt_evt_push evt_zero,
                      Call.sd_ble_tx_buffer_count_get,
                      Call.sd_ble_gatts_hvx 0xFFFF 0xFFFF] }
      ∧ (0x10 ≠ nrf51.BLE_GATTS_EVT_WRITE)
      ∧ mesh_gatt_sd_ble_event_handle nrf51 collab_ok (state_conn nrf51.CONN_HANDLE_INVALID)
          evt_zero (write_evt nrf51 99 evt_zero)
        = { rsp_evt := evt_zero, send_response := false,
            calls := [Call.mesh_gatt_evt_push evt_zero,
                      Call.sd_ble_tx_buffer_count_get,
                      Call.sd_ble_gatts_hvx 0xFFFF 0xFFFF] }
      ∧ (99 ≠ (state_conn nrf51.CONN_HANDLE_INVALID).ble_val_char_value_handle
          ∧ 99 ≠ (state_conn nrf51.CONN_HANDLE_INVALID).ble_md_char_value_handle) := by
  decide

/-- For every event that is not a write, and for every write to an attribute that
is neither the value nor the metadata endpoint, the dispatch of
`mesh_gatt_sd_ble_event_handle` makes no call before the final push (no
value-handler and no radio function), marks no response and never writes
`rsp_evt`; the whole trace is the final push of that `rsp_evt` and the calls of
the push. -/
theorem event_handle_unhandled_event (c : Consts) (x : Collab) (s : mesh_state)
    (rsp_evt : mesh_gatt_evt_t) (p_ble_evt : ble_evt_t)
    (h : p_ble_evt.evt_id ≠ c.BLE_GATTS_EVT_WRITE
      ∨ (p_ble_evt.write.handle ≠ s.ble_val_char_value_handle
        ∧ p_ble_evt.write.handle ≠ s.ble_md_char_value_handle)) :
    mesh_gatt_sd_ble_event_handle c x s rsp_evt p_ble_evt
      = { rsp_evt := rsp_evt, send_response := false,
          calls := Call.mesh_gatt_evt_push rsp_evt :: (mesh_gatt_evt_push c x s rsp_evt).calls } := by
  unfold mesh_gatt_sd_ble_event_handle
  rcases h with h | ⟨h1, h2⟩
  · simp [h]
  · by_cases hw : p_ble_evt.evt_id = c.BLE_GATTS_EVT_WRITE
    · simp [hw, h1, h2]
    · simp [hw]

/-- Witness of `event_handle_unhandled_event`: an event with id `0x10`, which is
not a write, with a live connection. -/
theorem event_handle_unhandled_event_witness :
    mesh_gatt_sd_ble_event_handle nrf51 collab_ok (state_conn 0) evt_zero
        { write_evt nrf51 14 evt_zero with evt_id := 0x10 }
      = { rsp_evt := evt_zero, send_response := false,
          calls := Call.mesh_gatt_evt_push evt_zero
            :: (mesh_gatt_evt_push nrf51 collab_ok (state_conn 0) evt_zero).calls } :=
  event_handle_unhandled_event nrf51 collab_ok (state_conn 0) evt_zero
    { write_evt nrf51 14 evt_zero with evt_id := 0x10 } (Or.inl (by decide))

end MeshGatt
